import Mathlib

/-!
Verification of the inventory-management repository core against its design
specification.

The JavaScript API handlers are shallowly embedded as pure Lean functions on
explicit state.  JS numbers are modelled as rationals; the result of
`parseInt` is modelled by `JsParse` (an integer or NaN); the extended result
of a JS division (which can produce `NaN` and `Infinity` at a zero
denominator) is modelled by `JsNum`.  `Array.prototype.find` and
`Array.prototype.findIndex` are modelled by the recursive functions `jsFind`
and `jsFindIndex`.  The persisted JSON files are modelled as lists of
records; a handler returns its HTTP response together with the state of the
persisted files after the request (handlers only write at their final
`writeJsonFile` calls, so every early-return error branch leaves the
persisted state untouched).
-/

/-- Result of `parseInt` on a request-body value: either NaN or an integer. -/
inductive JsParse where
  | nan : JsParse
  | int (n : Int) : JsParse
deriving DecidableEq, Repr

/-- A JS number that may be NaN or an infinity, as produced by division. -/
inductive JsNum where
  | nan : JsNum
  | negInf : JsNum
  | posInf : JsNum
  | fin (x : ℚ) : JsNum
deriving DecidableEq, Repr

/-- JS division `a / b` on finite operands, with IEEE-style zero-denominator
behaviour: `0 / 0` is NaN, `a / 0` is a signed infinity for nonzero `a`. -/
def jsDiv (a b : ℚ) : JsNum :=
  if b = 0 then
    if a = 0 then JsNum.nan
    else if 0 < a then JsNum.posInf
    else JsNum.negInf
  else JsNum.fin (a / b)

/-- JS comparison `x < c` against a finite constant (false on NaN). -/
def JsNum.ltQ : JsNum → ℚ → Bool
  | JsNum.nan, _ => false
  | JsNum.negInf, _ => true
  | JsNum.posInf, _ => false
  | JsNum.fin x, c => decide (x < c)

/-- JS comparison `x > c` against a finite constant (false on NaN). -/
def JsNum.gtQ : JsNum → ℚ → Bool
  | JsNum.nan, _ => false
  | JsNum.negInf, _ => false
  | JsNum.posInf, _ => true
  | JsNum.fin x, c => decide (c < x)

/-- JS strict equality `x === c` against a finite constant (false on NaN). -/
def JsNum.eqQ : JsNum → ℚ → Bool
  | JsNum.nan, _ => false
  | JsNum.negInf, _ => false
  | JsNum.posInf, _ => false
  | JsNum.fin x, c => decide (x = c)

/-- `Array.prototype.find`: first element satisfying the predicate. -/
def jsFind {α : Type} (p : α → Bool) : List α → Option α
  | [] => none
  | a :: l => if p a then some a else jsFind p l

/-- `Array.prototype.findIndex`, returning `none` instead of `-1`. -/
def jsFindIndex {α : Type} (p : α → Bool) : List α → Option Nat
  | [] => none
  | a :: l => if p a then some 0 else (jsFindIndex p l).map (· + 1)

/-- `Math.max(...xs) + 1` over a nonempty id list, and `1` on the empty
list, as used by every `insert` in the repository. -/
def jsNextId : List Int → Int
  | [] => 1
  | x :: xs => xs.foldl max x + 1

/- Basic inventory records, with the fields the core reads.  Timestamps are
opaque strings supplied by the caller of each modelled handler. -/

/-- A product record from `products.json`. -/
structure Product where
  id : Int
  sku : String
  name : String
  category : String
  unitCost : ℚ
  reorderPoint : ℚ
deriving DecidableEq, Repr

/-- A warehouse record from `warehouses.json`. -/
structure Warehouse where
  id : Int
  code : String
  name : String
  location : String
deriving DecidableEq, Repr

/-- A stock record from `stock.json`. -/
structure StockRecord where
  id : Int
  productId : Int
  warehouseId : Int
  quantity : ℚ
  createdAt : Option String
  updatedAt : Option String
deriving DecidableEq, Repr

/-- A transfer record from `transfers.json`. -/
structure Transfer where
  id : Int
  productId : Int
  fromWarehouseId : Int
  toWarehouseId : Int
  quantity : Int
  notes : String
  status : String
  createdAt : String
deriving DecidableEq, Repr

/-- An alert-tracking record from `alerts.json`. -/
structure AlertRecord where
  id : Int
  productId : Int
  acknowledged : Bool
  acknowledgedAt : Option String
  dismissed : Bool
  dismissedAt : Option String
  notes : String
  createdAt : Option String
  updatedAt : Option String
deriving DecidableEq, Repr

namespace Helpers

/-- The status value returned by `getStockStatus` in `src/utils/helpers.js`. -/
structure StockStatus where
  status : String
  label : String
  color : String
  severity : Nat
deriving DecidableEq, Repr

/-- `getStockStatus` from `src/utils/helpers.js`: classify
`(quantity, reorderPoint)` by the ratio `quantity / reorderPoint`, including
the JS behaviour of the unguarded division at `reorderPoint = 0`. -/
def getStockStatus (quantity reorderPoint : ℚ) : StockStatus :=
  let ratio := jsDiv quantity reorderPoint
  if ratio.eqQ 0 then ⟨"out", "Out of Stock", "error", 4⟩
  else if ratio.ltQ (1/2) then ⟨"critical", "Critical", "error", 3⟩
  else if ratio.ltQ 1 then ⟨"low", "Low Stock", "warning", 2⟩
  else if ratio.gtQ 3 then ⟨"overstocked", "Overstocked", "info", 0⟩
  else ⟨"adequate", "Adequate", "success", 1⟩

end Helpers

namespace AlertsApi

/-- The status value returned by the `getStockStatus` copies in the alerts
API handlers (these add a `priority` field to the helpers version). -/
structure StockStatus where
  status : String
  label : String
  color : String
  severity : Nat
  priority : String
deriving DecidableEq, Repr

/-- `getStockStatus` as duplicated in `pages/api/alerts/index.js` and
`pages/api/alerts/[productId].js`. -/
def getStockStatus (quantity reorderPoint : ℚ) : StockStatus :=
  let ratio := jsDiv quantity reorderPoint
  if ratio.eqQ 0 then ⟨"out", "Out of Stock", "error", 4, "critical"⟩
  else if ratio.ltQ (1/2) then ⟨"critical", "Critical", "error", 3, "high"⟩
  else if ratio.ltQ 1 then ⟨"low", "Low Stock", "warning", 2, "medium"⟩
  else if ratio.gtQ 3 then ⟨"overstocked", "Overstocked", "info", 0, "low"⟩
  else ⟨"adequate", "Adequate", "success", 1, "none"⟩

/-- The reorder recommendation computed by the alerts API. -/
structure Recommendation where
  recommendedQuantity : ℚ
  estimatedCost : ℚ
  urgency : String
  targetStock : ℚ
deriving DecidableEq, Repr

/-- `getReorderRecommendation` from `pages/api/alerts/index.js`: `null` when
current stock has reached the reorder point, otherwise an order bringing
stock to twice the reorder point. -/
def getReorderRecommendation (currentStock reorderPoint unitCost : ℚ) :
    Option Recommendation :=
  if reorderPoint ≤ currentStock then none
  else
    let targetStock := reorderPoint * 2
    let recommendedQuantity := targetStock - currentStock
    let estimatedCost := recommendedQuantity * unitCost
    some ⟨recommendedQuantity, estimatedCost,
      if currentStock < reorderPoint * (1/2) then "critical" else "normal",
      targetStock⟩

end AlertsApi

/-!
Claims about the status classifier and the recommendation engine.
-/

/-- C3 counterexample: with `reorderPoint = 0` the unguarded JS division
makes `classify(5, 0)` OVERSTOCKED (ratio `Infinity`), not ADEQUATE, and
`classify(0, 0)` ADEQUATE with severity 1 (ratio `NaN`), not OUT with
severity 4. -/
theorem C3_counterexample :
    (Helpers.getStockStatus 5 0).status = "overstocked" ∧
    (Helpers.getStockStatus 5 0).status ≠ "adequate" ∧
    (Helpers.getStockStatus 0 0).status = "adequate" ∧
    (Helpers.getStockStatus 0 0).status ≠ "out" ∧
    (Helpers.getStockStatus 0 0).severity = 1 := by
  refine ⟨?_, ?_, ?_, ?_, ?_⟩ <;> decide

/-- C3 amended: for every quantity q ≥ 0, `classify(q, 0)` (every runtime
copy of it) returns OVERSTOCKED (severity 0) when q > 0 — the ratio is
`Infinity`, which exceeds the overstock threshold — and ADEQUATE
(severity 1) when q = 0, because the ratio is `NaN` and every threshold
comparison on `NaN` is false. -/
theorem C3_amended_reorder_point_zero (q : ℚ) (hq : 0 ≤ q) :
    (0 < q →
      (Helpers.getStockStatus q 0).status = "overstocked" ∧
      (Helpers.getStockStatus q 0).severity = 0 ∧
      (AlertsApi.getStockStatus q 0).status = "overstocked" ∧
      (AlertsApi.getStockStatus q 0).severity = 0) ∧
    (q = 0 →
      (Helpers.getStockStatus q 0).status = "adequate" ∧
      (Helpers.getStockStatus q 0).severity = 1 ∧
      (AlertsApi.getStockStatus q 0).status = "adequate" ∧
      (AlertsApi.getStockStatus q 0).severity = 1) := by
  constructor
  · intro hpos
    have hne : ¬(q = 0) := ne_of_gt hpos
    simp [Helpers.getStockStatus, AlertsApi.getStockStatus, jsDiv, hne, hpos,
      JsNum.eqQ, JsNum.ltQ, JsNum.gtQ]
  · intro h0
    subst h0
    simp [Helpers.getStockStatus, AlertsApi.getStockStatus, jsDiv,
      JsNum.eqQ, JsNum.ltQ, JsNum.gtQ]

/-- C3 amended witness at q = 5. -/
theorem C3_amended_reorder_point_zero_witness :
    (0:ℚ) ≤ 5 ∧ (Helpers.getStockStatus 5 0).status = "overstocked" :=
  ⟨by norm_num,
    ((C3_amended_reorder_point_zero 5 (by norm_num)).1 (by norm_num)).1⟩

/-- C6: the recommendation engine returns `null` exactly when current stock
has reached the reorder point; otherwise the recommended quantity tops stock
up to twice the reorder point, the estimated cost is the recommended
quantity times the unit cost, and urgency is critical exactly below half the
reorder point. -/
theorem C6_recommendation_correctness (c r u : ℚ)
    (hc : 0 ≤ c) (hr : 0 ≤ r) (hu : 0 ≤ u) :
    (AlertsApi.getReorderRecommendation c r u = none ↔ r ≤ c) ∧
    (∀ rec, AlertsApi.getReorderRecommendation c r u = some rec →
      rec.recommendedQuantity = r * 2 - c ∧
      c + rec.recommendedQuantity = r * 2 ∧
      rec.estimatedCost = rec.recommendedQuantity * u ∧
      (rec.urgency = "critical" ↔ c < r * (1/2)) ∧
      (rec.urgency = "normal" ↔ ¬ c < r * (1/2))) := by
  unfold AlertsApi.getReorderRecommendation
  split_ifs with h1 h2
  · refine ⟨by simp [h1], ?_⟩
    intro rec hrec
    simp at hrec
  · refine ⟨by simp [h1], ?_⟩
    intro rec hrec
    injection hrec with h
    subst h
    refine ⟨rfl, by ring, rfl, ?_, ?_⟩ <;> simpa using h2
  · refine ⟨by simp [h1], ?_⟩
    intro rec hrec
    injection hrec with h
    subst h
    refine ⟨rfl, by ring, rfl, ?_, ?_⟩ <;> simpa using h2

/-- C6 witness at currentStock 1, reorderPoint 2, unitCost 3. -/
theorem C6_recommendation_correctness_witness :
    AlertsApi.getReorderRecommendation 1 2 3 = none ↔ (2:ℚ) ≤ 1 :=
  (C6_recommendation_correctness 1 2 3 (by norm_num) (by norm_num)
    (by norm_num)).1

/-- C7: the classifier in `src/utils/helpers.js` and the classifier
duplicated in the alerts API agree on status, label and severity at every
input (the `STOCK_THRESHOLDS.CRITICAL = 0.25` constant is never consumed by
any runtime classifier), and in particular quantity 30 at reorder point 100
resolves to CRITICAL on both code paths. -/
theorem C7_classifier_agreement :
    (∀ q r : ℚ, 0 ≤ q → 0 < r →
      (Helpers.getStockStatus q r).status = (AlertsApi.getStockStatus q r).status ∧
      (Helpers.getStockStatus q r).label = (AlertsApi.getStockStatus q r).label ∧
      (Helpers.getStockStatus q r).severity = (AlertsApi.getStockStatus q r).severity) ∧
    (Helpers.getStockStatus 30 100).status = "critical" ∧
    (AlertsApi.getStockStatus 30 100).status = "critical" := by
  refine ⟨?_,
    by norm_num [Helpers.getStockStatus, jsDiv, JsNum.eqQ, JsNum.ltQ, JsNum.gtQ],
    by norm_num [AlertsApi.getStockStatus, jsDiv, JsNum.eqQ, JsNum.ltQ, JsNum.gtQ]⟩
  intro q r _ _
  simp only [Helpers.getStockStatus, AlertsApi.getStockStatus]
  split_ifs <;> exact ⟨rfl, rfl, rfl⟩

/-- C7 witness at quantity 30, reorder point 100. -/
theorem C7_classifier_agreement_witness :
    (Helpers.getStockStatus 30 100).status =
      (AlertsApi.getStockStatus 30 100).status :=
  (C7_classifier_agreement.1 30 100 (by norm_num) (by norm_num)).1

/-!
Toolkit lemmas about `jsFind` and `jsFindIndex`.
-/

/-- A found index points at an element satisfying the predicate. -/
theorem jsFindIndex_getElem {α : Type} (p : α → Bool) :
    ∀ (l : List α) (i : Nat), jsFindIndex p l = some i →
      ∃ a, l[i]? = some a ∧ p a = true := by
  intro l
  induction l with
  | nil => intro i h; simp [jsFindIndex] at h
  | cons x xs ih =>
    intro i h
    by_cases hx : p x
    · simp [jsFindIndex, hx] at h
      exact h ▸ ⟨x, by simp, hx⟩
    · simp [jsFindIndex, hx] at h
      obtain ⟨j, hj, rfl⟩ := h
      obtain ⟨a, ha, hpa⟩ := ih j hj
      exact ⟨a, by simpa using ha, hpa⟩

/-- Elements strictly before a found index fail the predicate. -/
theorem jsFindIndex_before {α : Type} (p : α → Bool) :
    ∀ (l : List α) (i : Nat), jsFindIndex p l = some i →
      ∀ j b, j < i → l[j]? = some b → p b = false := by
  intro l
  induction l with
  | nil => intro i h; simp [jsFindIndex] at h
  | cons x xs ih =>
    intro i h j b hj hb
    by_cases hx : p x
    · simp [jsFindIndex, hx] at h
      omega
    · simp [jsFindIndex, hx] at h
      obtain ⟨k, hk, rfl⟩ := h
      match j with
      | 0 =>
        have hxb : x = b := by simpa using hb
        subst hxb
        simpa using hx
      | j + 1 => exact ih k hk j b (by omega) (by simpa using hb)

/-- If nothing is found, every element fails the predicate. -/
theorem jsFindIndex_none {α : Type} (p : α → Bool) :
    ∀ (l : List α), jsFindIndex p l = none → ∀ b ∈ l, p b = false := by
  intro l
  induction l with
  | nil => intro _ b hb; simp at hb
  | cons x xs ih =>
    intro h b hb
    by_cases hx : p x
    · simp [jsFindIndex, hx] at h
    · simp [jsFindIndex, hx] at h
      rcases List.mem_cons.mp hb with rfl | hmem
      · simpa using hx
      · exact ih h b hmem

/-- Converse: an index whose element matches, with every earlier element
failing, is the found index. -/
theorem jsFindIndex_of_first {α : Type} (p : α → Bool) :
    ∀ (l : List α) (i : Nat) (a : α), l[i]? = some a → p a = true →
      (∀ j b, j < i → l[j]? = some b → p b = false) →
      jsFindIndex p l = some i := by
  intro l
  induction l with
  | nil => intro i a ha _ _; simp at ha
  | cons x xs ih =>
    intro i a ha hpa hbefore
    match i with
    | 0 =>
      simp at ha
      simp [jsFindIndex, ha ▸ hpa]
    | i + 1 =>
      have hx : p x = false := hbefore 0 x (by omega) (by simp)
      simp [jsFindIndex, hx]
      exact ih i a (by simpa using ha) hpa
        (fun j b hj hb => hbefore (j + 1) b (by omega) (by simpa using hb))

/-- A found index yields the element returned by `jsFind`. -/
theorem jsFind_of_jsFindIndex {α : Type} (p : α → Bool) :
    ∀ (l : List α) (i : Nat) (a : α), jsFindIndex p l = some i →
      l[i]? = some a → jsFind p l = some a := by
  intro l
  induction l with
  | nil => intro i a h; simp [jsFindIndex] at h
  | cons x xs ih =>
    intro i a h ha
    by_cases hx : p x
    · simp [jsFindIndex, hx] at h
      subst h
      simp at ha
      subst ha
      simp [jsFind, hx]
    · simp [jsFindIndex, hx] at h
      obtain ⟨j, hj, rfl⟩ := h
      simp [jsFind, hx]
      exact ih j a hj (by simpa using ha)

/-- `jsFind` fails exactly when every element fails the predicate. -/
theorem jsFind_eq_none {α : Type} (p : α → Bool) :
    ∀ (l : List α), jsFind p l = none ↔ ∀ b ∈ l, p b = false := by
  intro l
  induction l with
  | nil => simp [jsFind]
  | cons x xs ih =>
    by_cases hx : p x
    · simp only [jsFind, if_pos hx]
      constructor
      · intro h; exact absurd h (by simp)
      · intro h; exact absurd (h x (by simp)) (by simp [hx])
    · simp only [jsFind, if_neg hx, ih]
      constructor
      · intro h b hb
        rcases List.mem_cons.mp hb with rfl | hmem
        · simpa using hx
        · exact h b hmem
      · intro h b hb
        exact h b (List.mem_cons_of_mem _ hb)

namespace AlertsApi

/-- The fresh alert record pushed by the POST branch of
`pages/api/alerts/index.js` when no record exists for the product. -/
def newAlertRecord (alerts : List AlertRecord) (pid : Int) (now : String) :
    AlertRecord :=
  { id := jsNextId (alerts.map (fun a => a.id))
  , productId := pid
  , acknowledged := false
  , acknowledgedAt := none
  , dismissed := false
  , dismissedAt := none
  , notes := ""
  , createdAt := some now
  , updatedAt := none }

/-- The `switch (action)` of the alerts POST handler: the five known actions
update the record (`notes.getD ""` models the JS `notes || two-quotes`);
an unknown action produces no update. -/
def applyAction (rec : AlertRecord) (action : String) (notes : Option String)
    (now : String) : Option AlertRecord :=
  if action = "acknowledge" then
    some { rec with acknowledged := true, acknowledgedAt := some now }
  else if action = "unacknowledge" then
    some { rec with acknowledged := false, acknowledgedAt := none }
  else if action = "dismiss" then
    some { rec with dismissed := true, dismissedAt := some now }
  else if action = "undismiss" then
    some { rec with dismissed := false, dismissedAt := none }
  else if action = "update_notes" then
    some { rec with notes := notes.getD "" }
  else none

/-- Response of the alerts POST handler. -/
inductive AlertPostResponse where
  | error (status : Nat) (error : String) (message : String) : AlertPostResponse
  | ok (alert : AlertRecord) : AlertPostResponse
deriving DecidableEq, Repr

/-- The error message enumerating the valid alert actions. -/
def validActionsMessage : String :=
  "Valid actions are: acknowledge, unacknowledge, dismiss, undismiss, update_notes"

/-- The POST branch of `pages/api/alerts/index.js` (`applyAlertAction`):
look up or lazily create the product's alert record, apply the action, stamp
`updatedAt` and persist.  The result is the HTTP response paired with the
persisted contents of `alerts.json` after the request; the handler only
writes after a successful action switch, so every error return leaves the
persisted list untouched.  `productId` models the request-body value after
the JS truthiness test and `parseInt`: `none` is a falsy value,
`some JsParse.nan` a truthy value that does not parse to a number (it can
match no product id).  The impossible in-bounds index read is mapped to the
handler's catch-all 500 response. -/
def postAlertAction (products : List Product) (alerts : List AlertRecord)
    (productId : Option JsParse) (action : String) (notes : Option String)
    (now : String) : AlertPostResponse × List AlertRecord :=
  match productId with
  | none =>
    (AlertPostResponse.error 400 "Missing product ID" "Product ID is required.",
      alerts)
  | some JsParse.nan =>
    (AlertPostResponse.error 404 "Product not found"
      "The specified product does not exist.", alerts)
  | some (JsParse.int pid) =>
    match jsFind (fun p => p.id == pid) products with
    | none =>
      (AlertPostResponse.error 404 "Product not found"
        "The specified product does not exist.", alerts)
    | some _ =>
      match jsFindIndex (fun a => a.productId == pid) alerts with
      | some i =>
        match alerts[i]? with
        | none =>
          (AlertPostResponse.error 500 "Internal Server Error"
            "An error occurred while processing alerts.", alerts)
        | some rec =>
          match applyAction rec action notes now with
          | none =>
            (AlertPostResponse.error 400 "Invalid action" validActionsMessage,
              alerts)
          | some rec1 =>
            let rec2 := { rec1 with updatedAt := some now }
            (AlertPostResponse.ok rec2, alerts.set i rec2)
      | none =>
        let fresh := newAlertRecord alerts pid now
        match applyAction fresh action notes now with
        | none =>
          (AlertPostResponse.error 400 "Invalid action" validActionsMessage,
            alerts)
        | some rec1 =>
          let rec2 := { rec1 with updatedAt := some now }
          (AlertPostResponse.ok rec2, alerts ++ [rec2])

end AlertsApi

/-- The non-timestamp fields of an alert record: id, productId,
acknowledged, dismissed, notes. -/
def AlertRecord.core (a : AlertRecord) : Int × Int × Bool × Bool × String :=
  (a.id, a.productId, a.acknowledged, a.dismissed, a.notes)

/-- The five valid alert actions. -/
def validAlertAction (action : String) : Prop :=
  action = "acknowledge" ∨ action = "unacknowledge" ∨ action = "dismiss" ∨
    action = "undismiss" ∨ action = "update_notes"

/-- A valid action always produces an update. -/
theorem applyAction_total (rec : AlertRecord) (action : String)
    (notes : Option String) (now : String) (ha : validAlertAction action) :
    ∃ r, AlertsApi.applyAction rec action notes now = some r := by
  unfold AlertsApi.applyAction
  rcases ha with h | h | h | h | h <;> subst h <;> simp

/-- An update preserves the record's id and productId. -/
theorem applyAction_id (rec rec1 : AlertRecord) (action : String)
    (notes : Option String) (now : String)
    (h : AlertsApi.applyAction rec action notes now = some rec1) :
    rec1.productId = rec.productId ∧ rec1.id = rec.id := by
  unfold AlertsApi.applyAction at h
  split_ifs at h <;> injection h with h <;> subst h <;> exact ⟨rfl, rfl⟩

/-- Re-applying a valid action to the record it produced changes only
timestamps. -/
theorem applyAction_core_idem (rec rec1 : AlertRecord) (action : String)
    (notes : Option String) (t1 t2 : String)
    (h : AlertsApi.applyAction rec action notes t1 = some rec1) :
    ∃ rec3,
      AlertsApi.applyAction { rec1 with updatedAt := some t1 } action notes t2 =
        some rec3 ∧
      AlertRecord.core { rec3 with updatedAt := some t2 } =
        AlertRecord.core { rec1 with updatedAt := some t1 } := by
  unfold AlertsApi.applyAction at h ⊢
  split_ifs at h <;> injection h with h <;> subst h <;>
    simp_all [AlertRecord.core]

/-- C8: applying any of the five alert actions twice in a row yields the
same final alert record as applying it once, on every field other than the
timestamps (`acknowledgedAt`, `dismissedAt`, `createdAt`, `updatedAt`). -/
theorem C8_alert_action_idempotent (products : List Product)
    (alerts : List AlertRecord) (pid : Int) (p : Product) (action : String)
    (notes : Option String) (t1 t2 : String)
    (hp : jsFind (fun q => q.id == pid) products = some p)
    (ha : validAlertAction action) :
    ∃ rec1 store1 rec2 store2,
      AlertsApi.postAlertAction products alerts (some (JsParse.int pid))
        action notes t1 = (AlertsApi.AlertPostResponse.ok rec1, store1) ∧
      AlertsApi.postAlertAction products store1 (some (JsParse.int pid))
        action notes t2 = (AlertsApi.AlertPostResponse.ok rec2, store2) ∧
      rec2.core = rec1.core := by
  cases hfi : jsFindIndex (fun a => a.productId == pid) alerts with
  | some i =>
    obtain ⟨rec, hrec, hprec⟩ :=
      jsFindIndex_getElem (fun a => a.productId == pid) alerts i hfi
    obtain ⟨hlt, _⟩ := List.getElem?_eq_some.mp hrec
    obtain ⟨r1, hact1⟩ := applyAction_total rec action notes t1 ha
    have h1 : AlertsApi.postAlertAction products alerts
        (some (JsParse.int pid)) action notes t1 =
        (AlertsApi.AlertPostResponse.ok { r1 with updatedAt := some t1 },
          alerts.set i { r1 with updatedAt := some t1 }) := by
      simp [AlertsApi.postAlertAction, hp, hfi, hrec, hact1]
    have hpid1 : ({ r1 with updatedAt := some t1 } : AlertRecord).productId
        == pid := by
      have := (applyAction_id rec r1 action notes t1 hact1).1
      simpa [this] using hprec
    have hset : (alerts.set i { r1 with updatedAt := some t1 })[i]? =
        some { r1 with updatedAt := some t1 } :=
      List.getElem?_set_self hlt
    have hfi2 : jsFindIndex (fun a => a.productId == pid)
        (alerts.set i { r1 with updatedAt := some t1 }) = some i := by
      refine jsFindIndex_of_first _ _ i _ hset hpid1 ?_
      intro j b hj hb
      rw [List.getElem?_set_ne (by omega)] at hb
      exact jsFindIndex_before _ alerts i hfi j b hj hb
    obtain ⟨rec3, hact2, hcore⟩ :=
      applyAction_core_idem rec r1 action notes t1 t2 hact1
    have h2 : AlertsApi.postAlertAction products
        (alerts.set i { r1 with updatedAt := some t1 })
        (some (JsParse.int pid)) action notes t2 =
        (AlertsApi.AlertPostResponse.ok { rec3 with updatedAt := some t2 },
          (alerts.set i { r1 with updatedAt := some t1 }).set i
            { rec3 with updatedAt := some t2 }) := by
      simp [AlertsApi.postAlertAction, hp, hfi2, hset, hact2]
    exact ⟨_, _, _, _, h1, h2, hcore⟩
  | none =>
    obtain ⟨r1, hact1⟩ :=
      applyAction_total (AlertsApi.newAlertRecord alerts pid t1) action notes
        t1 ha
    have h1 : AlertsApi.postAlertAction products alerts
        (some (JsParse.int pid)) action notes t1 =
        (AlertsApi.AlertPostResponse.ok { r1 with updatedAt := some t1 },
          alerts ++ [{ r1 with updatedAt := some t1 }]) := by
      simp [AlertsApi.postAlertAction, hp, hfi, hact1]
    have hpid1 : ({ r1 with updatedAt := some t1 } : AlertRecord).productId
        == pid := by
      have := (applyAction_id _ r1 action notes t1 hact1).1
      simp [this, AlertsApi.newAlertRecord]
    have hset : (alerts ++ [{ r1 with updatedAt := some t1 }])[alerts.length]? =
        some { r1 with updatedAt := some t1 } :=
      List.getElem?_concat_length alerts _
    have hfi2 : jsFindIndex (fun a => a.productId == pid)
        (alerts ++ [{ r1 with updatedAt := some t1 }]) = some alerts.length := by
      refine jsFindIndex_of_first _ _ alerts.length _ hset hpid1 ?_
      intro j b hj hb
      rw [List.getElem?_append] at hb
      rw [if_pos hj] at hb
      exact jsFindIndex_none _ alerts hfi b (List.getElem?_mem hb)
    obtain ⟨rec3, hact2, hcore⟩ :=
      applyAction_core_idem _ r1 action notes t1 t2 hact1
    have h2 : AlertsApi.postAlertAction products
        (alerts ++ [{ r1 with updatedAt := some t1 }])
        (some (JsParse.int pid)) action notes t2 =
        (AlertsApi.AlertPostResponse.ok { rec3 with updatedAt := some t2 },
          (alerts ++ [{ r1 with updatedAt := some t1 }]).set alerts.length
            { rec3 with updatedAt := some t2 }) := by
      simp [AlertsApi.postAlertAction, hp, hfi2, hset, hact2]
    exact ⟨_, _, _, _, h1, h2, hcore⟩

/-- C8 witness: acknowledging twice on an initially empty alert store. -/
theorem C8_alert_action_idempotent_witness :
    ∃ rec1 store1 rec2 store2,
      AlertsApi.postAlertAction [⟨1, "SKU-1", "Widget", "Other", 10, 5⟩] []
        (some (JsParse.int 1)) "acknowledge" none "t1" =
        (AlertsApi.AlertPostResponse.ok rec1, store1) ∧
      AlertsApi.postAlertAction [⟨1, "SKU-1", "Widget", "Other", 10, 5⟩] store1
        (some (JsParse.int 1)) "acknowledge" none "t2" =
        (AlertsApi.AlertPostResponse.ok rec2, store2) ∧
      rec2.core = rec1.core :=
  C8_alert_action_idempotent [⟨1, "SKU-1", "Widget", "Other", 10, 5⟩] [] 1
    ⟨1, "SKU-1", "Widget", "Other", 10, 5⟩ "acknowledge" none "t1" "t2"
    (by simp [jsFind]) (Or.inl rfl)

/-- C9: an unknown action string is rejected with the validation error
whose message enumerates the five valid actions, and the persisted alert
store is unchanged — in particular the lazily created alert record is not
persisted by the failed call. -/
theorem C9_unknown_action_rejected (products : List Product)
    (alerts : List AlertRecord) (pid : Int) (p : Product) (action : String)
    (notes : Option String) (now : String)
    (hp : jsFind (fun q => q.id == pid) products = some p)
    (ha : ¬ validAlertAction action) :
    AlertsApi.postAlertAction products alerts (some (JsParse.int pid)) action
      notes now =
    (AlertsApi.AlertPostResponse.error 400 "Invalid action"
      AlertsApi.validActionsMessage, alerts) := by
  have hnone : ∀ rec : AlertRecord,
      AlertsApi.applyAction rec action notes now = none := by
    intro rec
    unfold AlertsApi.applyAction
    split_ifs with h1 h2 h3 h4 h5
    · exact absurd (show validAlertAction action from Or.inl h1) ha
    · exact absurd (show validAlertAction action from Or.inr (Or.inl h2)) ha
    · exact absurd
        (show validAlertAction action from Or.inr (Or.inr (Or.inl h3))) ha
    · exact absurd
        (show validAlertAction action from
          Or.inr (Or.inr (Or.inr (Or.inl h4)))) ha
    · exact absurd
        (show validAlertAction action from
          Or.inr (Or.inr (Or.inr (Or.inr h5)))) ha
    · rfl
  cases hfi : jsFindIndex (fun a => a.productId == pid) alerts with
  | some i =>
    obtain ⟨rec, hrec, _⟩ :=
      jsFindIndex_getElem (fun a => a.productId == pid) alerts i hfi
    simp [AlertsApi.postAlertAction, hp, hfi, hrec, hnone rec]
  | none =>
    simp [AlertsApi.postAlertAction, hp, hfi, hnone]

/-- C9 witness: a bogus action on an empty alert store. -/
theorem C9_unknown_action_rejected_witness :
    AlertsApi.postAlertAction [⟨1, "SKU-1", "Widget", "Other", 10, 5⟩] []
      (some (JsParse.int 1)) "escalate" none "t1" =
    (AlertsApi.AlertPostResponse.error 400 "Invalid action"
      AlertsApi.validActionsMessage, []) :=
  C9_unknown_action_rejected [⟨1, "SKU-1", "Widget", "Other", 10, 5⟩] [] 1
    ⟨1, "SKU-1", "Widget", "Other", 10, 5⟩ "escalate" none "t1"
    (by simp [jsFind]) (by simp [validAlertAction])

namespace AlertsApi

/-- The per-product alert row built by the GET branch of
`pages/api/alerts/index.js`.  The display-only enrichment (embedded product
details, warehouse breakdown, `lastUpdated`, alert ids and timestamps) is
omitted; the fields below are everything the filters and the summary read. -/
structure ProductAlert where
  productId : Int
  category : String
  currentStock : ℚ
  stockStatus : StockStatus
  reorderRecommendation : Option Recommendation
  acknowledged : Bool
  notes : String
deriving DecidableEq, Repr

/-- The `products.map` step of the GET branch: recompute status and
recommendation from live stock and join in the tracking flags of any
existing alert record. -/
def buildProductAlerts (products : List Product) (stock : List StockRecord)
    (alertRecords : List AlertRecord) : List ProductAlert :=
  products.map fun product =>
    let productStock := stock.filter (fun s => s.productId == product.id)
    let totalQuantity := productStock.foldl (fun sum s => sum + s.quantity) 0
    let existingAlert :=
      jsFind (fun a => a.productId == product.id) alertRecords
    { productId := product.id
      category := product.category
      currentStock := totalQuantity
      stockStatus := getStockStatus totalQuantity product.reorderPoint
      reorderRecommendation :=
        getReorderRecommendation totalQuantity product.reorderPoint
          product.unitCost
      acknowledged := match existingAlert with
        | some a => a.acknowledged
        | none => false
      notes := match existingAlert with
        | some a => a.notes
        | none => "" }

/-- The three optional query filters of the GET branch, applied in source
order: status (comma-separated list), category, acknowledged. -/
def applyAlertFilters (alerts : List ProductAlert)
    (status category acknowledged : Option String) : List ProductAlert :=
  let f1 := match status with
    | some st =>
      alerts.filter (fun a => (st.splitOn ",").contains a.stockStatus.status)
    | none => alerts
  let f2 := match category with
    | some c => f1.filter (fun a => a.category == c)
    | none => f1
  match acknowledged with
  | some ack => f2.filter (fun a => a.acknowledged == (ack == "true"))
  | none => f2

/-- The summary block of the GET response. -/
structure AlertsSummary where
  total : Nat
  critical : Nat
  low : Nat
  adequate : Nat
  overstocked : Nat
  needsAttention : Nat
  totalReorderValue : ℚ
deriving DecidableEq, Repr

/-- The summary statistics, computed over the full product-alert list. -/
def summarize (productAlerts : List ProductAlert) : AlertsSummary :=
  { total := productAlerts.length
    critical := (productAlerts.filter (fun a =>
      a.stockStatus.status == "critical" ||
        a.stockStatus.status == "out")).length
    low := (productAlerts.filter
      (fun a => a.stockStatus.status == "low")).length
    adequate := (productAlerts.filter
      (fun a => a.stockStatus.status == "adequate")).length
    overstocked := (productAlerts.filter
      (fun a => a.stockStatus.status == "overstocked")).length
    needsAttention := (productAlerts.filter (fun a =>
      decide (2 ≤ a.stockStatus.severity) && !a.acknowledged)).length
    totalReorderValue := (productAlerts.filter
      (fun a => a.reorderRecommendation.isSome)).foldl
      (fun sum a =>
        sum + (match a.reorderRecommendation with
          | some r => r.estimatedCost
          | none => 0)) 0 }

/-- The GET branch of `pages/api/alerts/index.js` (`listAlerts`): build the
per-product alerts, sort them by severity descending (a stable sort, as in
modern JS engines), filter per the query, and report the summary — which
the source computes over `productAlerts`, not over `filteredAlerts`. -/
def listAlerts (products : List Product) (stock : List StockRecord)
    (alertRecords : List AlertRecord)
    (status category acknowledged : Option String) :
    List ProductAlert × AlertsSummary :=
  let productAlerts := (buildProductAlerts products stock alertRecords).mergeSort
    (fun a b => decide (b.stockStatus.severity ≤ a.stockStatus.severity))
  (applyAlertFilters productAlerts status category acknowledged,
    summarize productAlerts)

end AlertsApi

/-- C10: the GET summary is computed over all products, not the filtered
list: it is identical under any two filter combinations, and its `total`
always equals the number of products. -/
theorem C10_summary_ignores_filters (products : List Product)
    (stock : List StockRecord) (alertRecords : List AlertRecord)
    (s1 c1 a1 s2 c2 a2 : Option String) :
    (AlertsApi.listAlerts products stock alertRecords s1 c1 a1).2 =
      (AlertsApi.listAlerts products stock alertRecords s2 c2 a2).2 ∧
    (AlertsApi.listAlerts products stock alertRecords s1 c1 a1).2.total =
      products.length := by
  refine ⟨rfl, ?_⟩
  simp [AlertsApi.listAlerts, AlertsApi.summarize, List.length_mergeSort,
    AlertsApi.buildProductAlerts]

/-- Updating one element changes a mapped sum by the difference of the two
images. -/
theorem mapsum_set {α : Type} (f : α → ℚ) :
    ∀ (l : List α) (i : Nat) (b old : α), l[i]? = some old →
      ((l.set i b).map f).sum = (l.map f).sum - f old + f b := by
  intro l
  induction l with
  | nil => intro i b old h; simp at h
  | cons x xs ih =>
    intro i b old h
    match i with
    | 0 =>
      simp at h
      subst h
      simp
      ring
    | i + 1 =>
      simp at h
      rw [List.set_cons_succ, List.map_cons, List.sum_cons, List.map_cons,
        List.sum_cons, ih i b old h]
      ring

/-- Replacing an element that fails the predicate by another failing one
leaves `jsFind` unchanged. -/
theorem jsFind_set_of_no_match {α : Type} (p : α → Bool) :
    ∀ (l : List α) (i : Nat) (b old : α), l[i]? = some old →
      p old = false → p b = false → jsFind p (l.set i b) = jsFind p l := by
  intro l
  induction l with
  | nil => intro i b old h; simp at h
  | cons x xs ih =>
    intro i b old h hold hb
    match i with
    | 0 =>
      simp at h
      subst h
      simp [jsFind, hold, hb]
    | i + 1 =>
      simp at h
      simp [jsFind, ih i b old h hold hb]

/-- Replacing the first matching element by another matching one makes the
replacement the `jsFind` result. -/
theorem jsFind_set_found {α : Type} (p : α → Bool) :
    ∀ (l : List α) (i : Nat) (b : α), jsFindIndex p l = some i →
      p b = true → jsFind p (l.set i b) = some b := by
  intro l
  induction l with
  | nil => intro i b h; simp [jsFindIndex] at h
  | cons x xs ih =>
    intro i b h hb
    by_cases hx : p x
    · simp [jsFindIndex, hx] at h
      subst h
      simp [jsFind, hb]
    · simp [jsFindIndex, hx] at h
      obtain ⟨j, hj, rfl⟩ := h
      simp [jsFind, hx, ih j b hj hb]

/-- `jsFind` over a one-element extension. -/
theorem jsFind_append_single {α : Type} (p : α → Bool) :
    ∀ (l : List α) (x : α), jsFind p (l ++ [x]) =
      match jsFind p l with
      | some a => some a
      | none => if p x then some x else none := by
  intro l x
  induction l with
  | nil => simp [jsFind]
  | cons y ys ih =>
    by_cases hy : p y <;> simp [jsFind, hy, ih]

namespace TransfersApi

/-- The request body of POST `/api/transfers`: each of the four ids and the
quantity is absent (`undefined`/`null`) or carries its `parseInt` result;
`notes` is an optional string. -/
structure TransferBody where
  productId : Option JsParse
  fromWarehouseId : Option JsParse
  toWarehouseId : Option JsParse
  quantity : Option JsParse
  notes : Option String
deriving DecidableEq, Repr

/-- The persisted JSON files read and written by the transfers handler. -/
structure FileState where
  products : List Product
  warehouses : List Warehouse
  stock : List StockRecord
  transfers : List Transfer
deriving DecidableEq, Repr

/-- Response of the transfers POST handler; `available` is the extra field
carried only by the insufficient-stock response. -/
inductive TransferResponse where
  | error (status : Nat) (error : String) (message : String)
      (available : Option ℚ) : TransferResponse
  | created (t : Transfer) : TransferResponse
deriving DecidableEq, Repr

/-- `notes ? notes.trim().substring(0, 500) : <empty string>`: JS truthiness
plus trim and truncation to 500 characters. -/
def normalizeNotes : Option String → String
  | none => ""
  | some s => if s = "" then "" else s.trim.take 500

/-- Everything the validation phase (lines 50-164 of the handler) has
established when it falls through to the mutation phase. -/
structure TransferCtx where
  parsedProductId : Int
  parsedFromWarehouseId : Int
  parsedToWarehouseId : Int
  parsedQuantity : Int
  product : Product
  fromWarehouse : Warehouse
  toWarehouse : Warehouse
  sourceStockIndex : Nat
  sourceStock : StockRecord
deriving DecidableEq, Repr

/-- The validation chain of the POST handler, in source order with the
first failing check producing the response: presence of the four fields,
numeric productId, numeric warehouse ids, distinct warehouses, positive
numeric quantity, product exists, both warehouses exist, a source stock
record exists, and it holds at least the requested quantity. -/
def checkTransfer (st : FileState) (body : TransferBody) :
    Except TransferResponse TransferCtx :=
  match body.productId with
  | none => .error (.error 400 "Validation failed" "Product ID is required."
      none)
  | some pRaw =>
  match body.fromWarehouseId with
  | none => .error (.error 400 "Validation failed"
      "Source warehouse ID is required." none)
  | some fRaw =>
  match body.toWarehouseId with
  | none => .error (.error 400 "Validation failed"
      "Destination warehouse ID is required." none)
  | some tRaw =>
  match body.quantity with
  | none => .error (.error 400 "Validation failed" "Quantity is required."
      none)
  | some qRaw =>
  match pRaw with
  | JsParse.nan => .error (.error 400 "Validation failed"
      "Product ID must be a valid number." none)
  | JsParse.int parsedProductId =>
  match fRaw, tRaw with
  | JsParse.nan, _ => .error (.error 400 "Validation failed"
      "Warehouse IDs must be valid numbers." none)
  | JsParse.int _, JsParse.nan => .error (.error 400 "Validation failed"
      "Warehouse IDs must be valid numbers." none)
  | JsParse.int parsedFromWarehouseId, JsParse.int parsedToWarehouseId =>
  if parsedFromWarehouseId = parsedToWarehouseId then
    .error (.error 400 "Validation failed"
      "Source and destination warehouses must be different." none)
  else
  match qRaw with
  | JsParse.nan => .error (.error 400 "Validation failed"
      "Quantity must be a positive number." none)
  | JsParse.int parsedQuantity =>
  if parsedQuantity ≤ 0 then
    .error (.error 400 "Validation failed"
      "Quantity must be a positive number." none)
  else
  match jsFind (fun p => p.id == parsedProductId) st.products with
  | none => .error (.error 404 "Not Found"
      "The specified product does not exist." none)
  | some product =>
  match jsFind (fun w => w.id == parsedFromWarehouseId) st.warehouses with
  | none => .error (.error 404 "Not Found"
      "Source warehouse does not exist." none)
  | some fromWarehouse =>
  match jsFind (fun w => w.id == parsedToWarehouseId) st.warehouses with
  | none => .error (.error 404 "Not Found"
      "Destination warehouse does not exist." none)
  | some toWarehouse =>
  match jsFindIndex (fun s => s.productId == parsedProductId &&
      s.warehouseId == parsedFromWarehouseId) st.stock with
  | none => .error (.error 400 "No stock available"
      (product.name ++ " is not available at " ++ fromWarehouse.name ++ ".")
      none)
  | some sourceStockIndex =>
  match st.stock[sourceStockIndex]? with
  | none => .error (.error 500 "Internal Server Error"
      "An error occurred while processing the transfer." none)
  | some sourceStock =>
  if sourceStock.quantity < (parsedQuantity : ℚ) then
    .error (.error 400 "Insufficient stock"
      ("Only " ++ toString sourceStock.quantity ++ " units available at " ++
        fromWarehouse.name ++ ". Cannot transfer " ++
        toString parsedQuantity ++ " units.")
      (some sourceStock.quantity))
  else
    .ok ⟨parsedProductId, parsedFromWarehouseId, parsedToWarehouseId,
      parsedQuantity, product, fromWarehouse, toWarehouse, sourceStockIndex,
      sourceStock⟩

/-- The mutation phase (lines 166-217): decrement the source record,
find-or-create and credit the destination record, append the completed
transfer, and persist stock and transfers.  The in-bounds index read that
cannot fail is mapped to the handler's catch-all 500 response with the
state unchanged. -/
def applyTransfer (st : FileState) (ctx : TransferCtx)
    (notes : Option String) (now : String) :
    TransferResponse × FileState :=
  let updatedSource :=
    { ctx.sourceStock with
        quantity := ctx.sourceStock.quantity - (ctx.parsedQuantity : ℚ)
        updatedAt := some now }
  let stock1 := st.stock.set ctx.sourceStockIndex updatedSource
  let newTransfer : Transfer :=
    { id := jsNextId (st.transfers.map (fun tr => tr.id))
      productId := ctx.parsedProductId
      fromWarehouseId := ctx.parsedFromWarehouseId
      toWarehouseId := ctx.parsedToWarehouseId
      quantity := ctx.parsedQuantity
      notes := normalizeNotes notes
      status := "completed"
      createdAt := now }
  match jsFindIndex (fun s => s.productId == ctx.parsedProductId &&
      s.warehouseId == ctx.parsedToWarehouseId) stock1 with
  | none =>
    let newStock : StockRecord :=
      { id := jsNextId (stock1.map (fun s => s.id))
        productId := ctx.parsedProductId
        warehouseId := ctx.parsedToWarehouseId
        quantity := (ctx.parsedQuantity : ℚ)
        createdAt := some now
        updatedAt := some now }
    (TransferResponse.created newTransfer,
      { st with stock := stock1 ++ [newStock]
                transfers := st.transfers ++ [newTransfer] })
  | some destStockIndex =>
    match stock1[destStockIndex]? with
    | none =>
      (TransferResponse.error 500 "Internal Server Error"
        "An error occurred while processing the transfer." none, st)
    | some destStock =>
      let updatedDest :=
        { destStock with
            quantity := destStock.quantity + (ctx.parsedQuantity : ℚ)
            updatedAt := some now }
      (TransferResponse.created newTransfer,
        { st with stock := stock1.set destStockIndex updatedDest
                  transfers := st.transfers ++ [newTransfer] })

/-- The POST branch of `pages/api/transfers/index.js`: validate, then
mutate; an early validation return leaves the persisted files untouched. -/
def postTransfer (st : FileState) (body : TransferBody) (now : String) :
    TransferResponse × FileState :=
  match checkTransfer st body with
  | .error resp => (resp, st)
  | .ok ctx => applyTransfer st ctx body.notes now

end TransfersApi

/-- The quantity held by the first stock record for a (product, warehouse)
pair, zero if no record exists (§4.1 `getQuantity`). -/
def stockQty (stock : List StockRecord) (pid wid : Int) : ℚ :=
  match jsFind (fun s => s.productId == pid && s.warehouseId == wid) stock with
  | some s => s.quantity
  | none => 0

/-- A product's total quantity summed across all warehouses, as the
dashboards and the alerts API compute it (filter, then fold). -/
def totalQty (stock : List StockRecord) (pid : Int) : ℚ :=
  (stock.filter (fun s => s.productId == pid)).foldl
    (fun sum s => sum + s.quantity) 0

/-- Folding additions starting from `a` is `a` plus the mapped sum. -/
theorem foldl_add_eq (f : StockRecord → ℚ) :
    ∀ (l : List StockRecord) (a : ℚ),
      l.foldl (fun sum s => sum + f s) a = a + (l.map f).sum := by
  intro l
  induction l with
  | nil => intro a; simp
  | cons x xs ih => intro a; simp [ih]; ring

/-- `totalQty` as a mapped sum over the whole list, with non-matching
records contributing zero. -/
theorem totalQty_eq_mapsum (pid : Int) :
    ∀ l : List StockRecord, totalQty l pid =
      (l.map (fun s => if s.productId == pid then s.quantity else 0)).sum := by
  intro l
  rw [totalQty, foldl_add_eq, zero_add]
  induction l with
  | nil => simp
  | cons x xs ih =>
    rw [List.filter_cons]
    by_cases hx : x.productId == pid
    · simp only [hx, if_pos, List.map_cons, List.sum_cons, ih]
    · simp only [hx, Bool.false_eq_true, if_false, List.map_cons,
        List.sum_cons, ih]
      exact (zero_add _).symm

/-- If no index matches, `jsFind` finds nothing. -/
theorem jsFind_none_of_jsFindIndex_none {α : Type} (p : α → Bool)
    (l : List α) (h : jsFindIndex p l = none) : jsFind p l = none :=
  (jsFind_eq_none p l).mpr (jsFindIndex_none p l h)

/-- Inversion of a successful validation phase: the source stock record was
found at the recorded index, holds at least the requested quantity, the
quantity is positive, and the two warehouses differ. -/
theorem checkTransfer_ok_inv (st : TransfersApi.FileState)
    (body : TransfersApi.TransferBody) (ctx : TransfersApi.TransferCtx)
    (h : TransfersApi.checkTransfer st body = Except.ok ctx) :
    jsFindIndex (fun s => s.productId == ctx.parsedProductId &&
        s.warehouseId == ctx.parsedFromWarehouseId) st.stock =
      some ctx.sourceStockIndex ∧
    st.stock[ctx.sourceStockIndex]? = some ctx.sourceStock ∧
    (ctx.parsedQuantity : ℚ) ≤ ctx.sourceStock.quantity ∧
    0 < ctx.parsedQuantity ∧
    ctx.parsedFromWarehouseId ≠ ctx.parsedToWarehouseId := by
  cases hbp : body.productId with
  | none => simp [TransfersApi.checkTransfer, hbp] at h
  | some pRaw =>
  cases hbf : body.fromWarehouseId with
  | none => simp [TransfersApi.checkTransfer, hbp, hbf] at h
  | some fRaw =>
  cases hbt : body.toWarehouseId with
  | none => simp [TransfersApi.checkTransfer, hbp, hbf, hbt] at h
  | some tRaw =>
  cases hbq : body.quantity with
  | none => simp [TransfersApi.checkTransfer, hbp, hbf, hbt, hbq] at h
  | some qRaw =>
  cases pRaw with
  | nan => simp [TransfersApi.checkTransfer, hbp, hbf, hbt, hbq] at h
  | int pid =>
  cases fRaw with
  | nan => simp [TransfersApi.checkTransfer, hbp, hbf, hbt, hbq] at h
  | int fid =>
  cases tRaw with
  | nan => simp [TransfersApi.checkTransfer, hbp, hbf, hbt, hbq] at h
  | int tid =>
  by_cases hft : fid = tid
  · simp [TransfersApi.checkTransfer, hbp, hbf, hbt, hbq, hft] at h
  cases qRaw with
  | nan => simp [TransfersApi.checkTransfer, hbp, hbf, hbt, hbq, hft] at h
  | int q =>
  by_cases hq0 : q ≤ 0
  · simp [TransfersApi.checkTransfer, hbp, hbf, hbt, hbq, hft, hq0] at h
  cases hfp : jsFind (fun p => p.id == pid) st.products with
  | none =>
    simp [TransfersApi.checkTransfer, hbp, hbf, hbt, hbq, hft, hq0, hfp] at h
  | some product =>
  cases hfw : jsFind (fun w => w.id == fid) st.warehouses with
  | none =>
    simp [TransfersApi.checkTransfer, hbp, hbf, hbt, hbq, hft, hq0, hfp,
      hfw] at h
  | some fromW =>
  cases htw : jsFind (fun w => w.id == tid) st.warehouses with
  | none =>
    simp [TransfersApi.checkTransfer, hbp, hbf, hbt, hbq, hft, hq0, hfp, hfw,
      htw] at h
  | some toW =>
  cases hsi : jsFindIndex (fun s => s.productId == pid &&
      s.warehouseId == fid) st.stock with
  | none =>
    simp [TransfersApi.checkTransfer, hbp, hbf, hbt, hbq, hft, hq0, hfp, hfw,
      htw, hsi] at h
  | some i =>
  cases hsg : st.stock[i]? with
  | none =>
    simp [TransfersApi.checkTransfer, hbp, hbf, hbt, hbq, hft, hq0, hfp, hfw,
      htw, hsi, hsg] at h
  | some src =>
  by_cases hlt : src.quantity < (q : ℚ)
  · simp [TransfersApi.checkTransfer, hbp, hbf, hbt, hbq, hft, hq0, hfp, hfw,
      htw, hsi, hsg, hlt] at h
  have hctx : ctx = ⟨pid, fid, tid, q, product, fromW, toW, i, src⟩ := by
    simp [TransfersApi.checkTransfer, hbp, hbf, hbt, hbq, hft, hq0, hfp, hfw,
      htw, hsi, hsg, hlt] at h
    exact h.symm
  subst hctx
  exact ⟨hsi, hsg, le_of_not_lt hlt, lt_of_not_le hq0, hft⟩

/-- A failed validation phase always carries an error response, never a
created one. -/
theorem checkTransfer_error_not_created (st : TransfersApi.FileState)
    (body : TransfersApi.TransferBody) (t : Transfer) :
    TransfersApi.checkTransfer st body ≠
      Except.error (TransfersApi.TransferResponse.created t) := by
  intro h
  unfold TransfersApi.checkTransfer at h
  repeat' split at h
  all_goals simp_all

/-- Facts about every successful transfer: the requested quantity is
positive and covered by the source record, the warehouses differ, the
source quantity drops by exactly the transferred quantity, the destination
quantity rises by exactly it, the product's total across warehouses is
unchanged, the completed transfer is appended, and non-negative stock stays
non-negative. -/
theorem postTransfer_success_facts (st : TransfersApi.FileState)
    (body : TransfersApi.TransferBody) (now : String) (t : Transfer)
    (st' : TransfersApi.FileState)
    (h : TransfersApi.postTransfer st body now =
      (TransfersApi.TransferResponse.created t, st')) :
    0 < t.quantity ∧
    (t.quantity : ℚ) ≤ stockQty st.stock t.productId t.fromWarehouseId ∧
    t.fromWarehouseId ≠ t.toWarehouseId ∧
    stockQty st'.stock t.productId t.fromWarehouseId =
      stockQty st.stock t.productId t.fromWarehouseId - (t.quantity : ℚ) ∧
    stockQty st'.stock t.productId t.toWarehouseId =
      stockQty st.stock t.productId t.toWarehouseId + (t.quantity : ℚ) ∧
    totalQty st'.stock t.productId = totalQty st.stock t.productId ∧
    st'.transfers = st.transfers ++ [t] ∧
    ((∀ s ∈ st.stock, 0 ≤ s.quantity) → ∀ s ∈ st'.stock, 0 ≤ s.quantity) := by
  cases hc : TransfersApi.checkTransfer st body with
  | error resp =>
    simp only [TransfersApi.postTransfer, hc, Prod.mk.injEq] at h
    rw [h.1] at hc
    exact absurd hc (checkTransfer_error_not_created st body t)
  | ok ctx =>
  obtain ⟨hsi, hsg, hle, hqpos, hne⟩ := checkTransfer_ok_inv st body ctx hc
  have happ : TransfersApi.applyTransfer st ctx body.notes now =
      (TransfersApi.TransferResponse.created t, st') := by
    simpa [TransfersApi.postTransfer, hc] using h
  obtain ⟨a, hga, hpa⟩ :=
    jsFindIndex_getElem (fun s => s.productId == ctx.parsedProductId &&
      s.warehouseId == ctx.parsedFromWarehouseId) st.stock
      ctx.sourceStockIndex hsi
  rw [hsg] at hga
  obtain rfl : ctx.sourceStock = a := Option.some_inj.mp hga
  simp only [Bool.and_eq_true, beq_iff_eq] at hpa
  obtain ⟨hpidsrc, hwidsrc⟩ := hpa
  have hqQ : (0 : ℚ) < (ctx.parsedQuantity : ℚ) := by exact_mod_cast hqpos
  have hsrcmem : ctx.sourceStock ∈ st.stock := List.getElem?_mem hsg
  have hsrcQ : stockQty st.stock ctx.parsedProductId
      ctx.parsedFromWarehouseId = ctx.sourceStock.quantity := by
    rw [stockQty,
      jsFind_of_jsFindIndex _ st.stock ctx.sourceStockIndex ctx.sourceStock
        hsi hsg]
  have hpSrcNew : ((fun s : StockRecord => s.productId == ctx.parsedProductId
      && s.warehouseId == ctx.parsedFromWarehouseId)
      { ctx.sourceStock with
          quantity := ctx.sourceStock.quantity - (ctx.parsedQuantity : ℚ)
          updatedAt := some now }) = true := by
    simp [hpidsrc, hwidsrc]
  have hpDestSrc : ((fun s : StockRecord =>
      s.productId == ctx.parsedProductId &&
      s.warehouseId == ctx.parsedToWarehouseId) ctx.sourceStock) = false := by
    simp [hwidsrc]
    intro _
    exact hne
  have hpDestNew : ((fun s : StockRecord =>
      s.productId == ctx.parsedProductId &&
      s.warehouseId == ctx.parsedToWarehouseId)
      { ctx.sourceStock with
          quantity := ctx.sourceStock.quantity - (ctx.parsedQuantity : ℚ)
          updatedAt := some now }) = false := by
    simp [hwidsrc]
    intro _
    exact hne
  have hfind1 : jsFind (fun s => s.productId == ctx.parsedProductId &&
      s.warehouseId == ctx.parsedFromWarehouseId)
      (st.stock.set ctx.sourceStockIndex
        { ctx.sourceStock with
            quantity := ctx.sourceStock.quantity - (ctx.parsedQuantity : ℚ)
            updatedAt := some now }) =
      some { ctx.sourceStock with
          quantity := ctx.sourceStock.quantity - (ctx.parsedQuantity : ℚ)
          updatedAt := some now } :=
    jsFind_set_found _ st.stock ctx.sourceStockIndex _ hsi hpSrcNew
  have hdest1 : jsFind (fun s => s.productId == ctx.parsedProductId &&
      s.warehouseId == ctx.parsedToWarehouseId)
      (st.stock.set ctx.sourceStockIndex
        { ctx.sourceStock with
            quantity := ctx.sourceStock.quantity - (ctx.parsedQuantity : ℚ)
            updatedAt := some now }) =
      jsFind (fun s => s.productId == ctx.parsedProductId &&
        s.warehouseId == ctx.parsedToWarehouseId) st.stock :=
    jsFind_set_of_no_match _ st.stock ctx.sourceStockIndex _ ctx.sourceStock
      hsg hpDestSrc hpDestNew
  cases hdi : jsFindIndex (fun s => s.productId == ctx.parsedProductId &&
      s.warehouseId == ctx.parsedToWarehouseId)
      (st.stock.set ctx.sourceStockIndex
        { ctx.sourceStock with
            quantity := ctx.sourceStock.quantity - (ctx.parsedQuantity : ℚ)
            updatedAt := some now }) with
  | none =>
    have hf1 : jsFind (fun s => s.productId == ctx.parsedProductId &&
        s.warehouseId == ctx.parsedToWarehouseId)
        (st.stock.set ctx.sourceStockIndex
          { ctx.sourceStock with
              quantity := ctx.sourceStock.quantity - (ctx.parsedQuantity : ℚ)
              updatedAt := some now }) = none :=
      jsFind_none_of_jsFindIndex_none _ _ hdi
    have hf0 : jsFind (fun s => s.productId == ctx.parsedProductId &&
        s.warehouseId == ctx.parsedToWarehouseId) st.stock = none := by
      rw [← hdest1]; exact hf1
    simp only [TransfersApi.applyTransfer, hdi, Prod.mk.injEq,
      TransfersApi.TransferResponse.created.injEq] at happ
    obtain ⟨ht, hst⟩ := happ
    subst ht
    subst hst
    refine ⟨hqpos, ?_, hne, ?_, ?_, ?_, rfl, ?_⟩
    · show (ctx.parsedQuantity : ℚ) ≤
        stockQty st.stock ctx.parsedProductId ctx.parsedFromWarehouseId
      rw [hsrcQ]; exact hle
    · show stockQty ((st.stock.set ctx.sourceStockIndex
        { ctx.sourceStock with
            quantity := ctx.sourceStock.quantity - (ctx.parsedQuantity : ℚ)
            updatedAt := some now }) ++ [_])
        ctx.parsedProductId ctx.parsedFromWarehouseId =
        stockQty st.stock ctx.parsedProductId ctx.parsedFromWarehouseId -
          (ctx.parsedQuantity : ℚ)
      rw [stockQty, jsFind_append_single, hfind1, hsrcQ]
    · show stockQty ((st.stock.set ctx.sourceStockIndex
        { ctx.sourceStock with
            quantity := ctx.sourceStock.quantity - (ctx.parsedQuantity : ℚ)
            updatedAt := some now }) ++ [_])
        ctx.parsedProductId ctx.parsedToWarehouseId =
        stockQty st.stock ctx.parsedProductId ctx.parsedToWarehouseId +
          (ctx.parsedQuantity : ℚ)
      rw [stockQty, jsFind_append_single, hf1, stockQty, hf0]
      simp
    · show totalQty ((st.stock.set ctx.sourceStockIndex
        { ctx.sourceStock with
            quantity := ctx.sourceStock.quantity - (ctx.parsedQuantity : ℚ)
            updatedAt := some now }) ++ [_]) ctx.parsedProductId =
        totalQty st.stock ctx.parsedProductId
      rw [totalQty_eq_mapsum, totalQty_eq_mapsum, List.map_append,
        List.sum_append,
        mapsum_set _ st.stock ctx.sourceStockIndex _ ctx.sourceStock hsg]
      simp [hpidsrc]
    · intro hnn s hs
      rcases List.mem_append.mp hs with hs1 | hs2
      · rcases List.mem_or_eq_of_mem_set hs1 with hmem | rfl
        · exact hnn s hmem
        · show 0 ≤ ctx.sourceStock.quantity - (ctx.parsedQuantity : ℚ)
          linarith
      · simp at hs2
        subst hs2
        show 0 ≤ (ctx.parsedQuantity : ℚ)
        exact le_of_lt hqQ
  | some j =>
    cases hdg : (st.stock.set ctx.sourceStockIndex
        { ctx.sourceStock with
            quantity := ctx.sourceStock.quantity - (ctx.parsedQuantity : ℚ)
            updatedAt := some now })[j]? with
    | none =>
      obtain ⟨d, hd, _⟩ := jsFindIndex_getElem _ _ j hdi
      rw [hdg] at hd
      exact absurd hd (by simp)
    | some d =>
      obtain ⟨d0, hd0, hpd0⟩ := jsFindIndex_getElem _ _ j hdi
      rw [hdg] at hd0
      have hdd : d0 = d := (Option.some_inj.mp hd0).symm
      subst hdd
      simp only [Bool.and_eq_true, beq_iff_eq] at hpd0
      obtain ⟨hpidd, hwidd⟩ := hpd0
      have hpSrcD : ((fun s : StockRecord =>
          s.productId == ctx.parsedProductId &&
          s.warehouseId == ctx.parsedFromWarehouseId) d0) = false := by
        simp [hwidd]
        intro _
        exact fun hh => hne hh.symm
      have hpSrcD2 : ((fun s : StockRecord =>
          s.productId == ctx.parsedProductId &&
          s.warehouseId == ctx.parsedFromWarehouseId)
          { d0 with quantity := d0.quantity + (ctx.parsedQuantity : ℚ)
                    updatedAt := some now }) = false := by
        simp [hwidd]
        intro _
        exact fun hh => hne hh.symm
      have hpDestD2 : ((fun s : StockRecord =>
          s.productId == ctx.parsedProductId &&
          s.warehouseId == ctx.parsedToWarehouseId)
          { d0 with quantity := d0.quantity + (ctx.parsedQuantity : ℚ)
                    updatedAt := some now }) = true := by
        simp [hwidd, hpidd]
      have hdQ : stockQty st.stock ctx.parsedProductId
          ctx.parsedToWarehouseId = d0.quantity := by
        rw [stockQty, ← hdest1, jsFind_of_jsFindIndex _ _ j d0 hdi hdg]
      have hfind2 : jsFind (fun s => s.productId == ctx.parsedProductId &&
          s.warehouseId == ctx.parsedFromWarehouseId)
          ((st.stock.set ctx.sourceStockIndex
            { ctx.sourceStock with
                quantity :=
                  ctx.sourceStock.quantity - (ctx.parsedQuantity : ℚ)
                updatedAt := some now }).set j
            { d0 with quantity := d0.quantity + (ctx.parsedQuantity : ℚ)
                      updatedAt := some now }) =
          some { ctx.sourceStock with
              quantity := ctx.sourceStock.quantity - (ctx.parsedQuantity : ℚ)
              updatedAt := some now } := by
        rw [jsFind_set_of_no_match _ _ j _ d0 hdg hpSrcD hpSrcD2]
        exact hfind1
      have hfind3 : jsFind (fun s => s.productId == ctx.parsedProductId &&
          s.warehouseId == ctx.parsedToWarehouseId)
          ((st.stock.set ctx.sourceStockIndex
            { ctx.sourceStock with
                quantity :=
                  ctx.sourceStock.quantity - (ctx.parsedQuantity : ℚ)
                updatedAt := some now }).set j
            { d0 with quantity := d0.quantity + (ctx.parsedQuantity : ℚ)
                      updatedAt := some now }) =
          some { d0 with quantity := d0.quantity + (ctx.parsedQuantity : ℚ)
                         updatedAt := some now } :=
        jsFind_set_found _ _ j _ hdi hpDestD2
      simp only [TransfersApi.applyTransfer, hdi, hdg, Prod.mk.injEq,
        TransfersApi.TransferResponse.created.injEq] at happ
      obtain ⟨ht, hst⟩ := happ
      subst ht
      subst hst
      refine ⟨hqpos, ?_, hne, ?_, ?_, ?_, rfl, ?_⟩
      · show (ctx.parsedQuantity : ℚ) ≤
          stockQty st.stock ctx.parsedProductId ctx.parsedFromWarehouseId
        rw [hsrcQ]; exact hle
      · show stockQty ((st.stock.set ctx.sourceStockIndex
          { ctx.sourceStock with
              quantity := ctx.sourceStock.quantity - (ctx.parsedQuantity : ℚ)
              updatedAt := some now }).set j
          { d0 with quantity := d0.quantity + (ctx.parsedQuantity : ℚ)
                    updatedAt := some now })
          ctx.parsedProductId ctx.parsedFromWarehouseId =
          stockQty st.stock ctx.parsedProductId ctx.parsedFromWarehouseId -
            (ctx.parsedQuantity : ℚ)
        rw [stockQty, hfind2, hsrcQ]
      · show stockQty ((st.stock.set ctx.sourceStockIndex
          { ctx.sourceStock with
              quantity := ctx.sourceStock.quantity - (ctx.parsedQuantity : ℚ)
              updatedAt := some now }).set j
          { d0 with quantity := d0.quantity + (ctx.parsedQuantity : ℚ)
                    updatedAt := some now })
          ctx.parsedProductId ctx.parsedToWarehouseId =
          stockQty st.stock ctx.parsedProductId ctx.parsedToWarehouseId +
            (ctx.parsedQuantity : ℚ)
        rw [stockQty, hfind3, hdQ]
      · show totalQty ((st.stock.set ctx.sourceStockIndex
          { ctx.sourceStock with
              quantity := ctx.sourceStock.quantity - (ctx.parsedQuantity : ℚ)
              updatedAt := some now }).set j
          { d0 with quantity := d0.quantity + (ctx.parsedQuantity : ℚ)
                    updatedAt := some now }) ctx.parsedProductId =
          totalQty st.stock ctx.parsedProductId
        rw [totalQty_eq_mapsum, totalQty_eq_mapsum,
          mapsum_set _ _ j _ d0 hdg,
          mapsum_set _ st.stock ctx.sourceStockIndex _ ctx.sourceStock hsg]
        simp [hpidsrc, hpidd]
        ring
      · intro hnn s hs
        rcases List.mem_or_eq_of_mem_set hs with hs1 | rfl
        · rcases List.mem_or_eq_of_mem_set hs1 with hmem | rfl
          · exact hnn s hmem
          · show 0 ≤ ctx.sourceStock.quantity - (ctx.parsedQuantity : ℚ)
            linarith
        · show 0 ≤ d0.quantity + (ctx.parsedQuantity : ℚ)
          rcases List.mem_or_eq_of_mem_set (List.getElem?_mem hdg)
            with hmem0 | rfl
          · have := hnn d0 hmem0
            linarith
          · show 0 ≤ ctx.sourceStock.quantity - (ctx.parsedQuantity : ℚ) +
              (ctx.parsedQuantity : ℚ)
            have := hnn ctx.sourceStock hsrcmem
            linarith

/-- The mutation phase can only fail through its unreachable in-bounds read,
and that branch leaves the state untouched. -/
theorem applyTransfer_error_state (st : TransfersApi.FileState)
    (ctx : TransfersApi.TransferCtx) (notes : Option String) (now : String)
    (s : Nat) (e m : String) (av : Option ℚ) (st' : TransfersApi.FileState)
    (h : TransfersApi.applyTransfer st ctx notes now =
      (TransfersApi.TransferResponse.error s e m av, st')) : st' = st := by
  cases hdi : jsFindIndex (fun s => s.productId == ctx.parsedProductId &&
      s.warehouseId == ctx.parsedToWarehouseId)
      (st.stock.set ctx.sourceStockIndex
        { ctx.sourceStock with
            quantity := ctx.sourceStock.quantity - (ctx.parsedQuantity : ℚ)
            updatedAt := some now }) with
  | none => simp [TransfersApi.applyTransfer, hdi] at h
  | some j =>
    cases hdg : (st.stock.set ctx.sourceStockIndex
        { ctx.sourceStock with
            quantity := ctx.sourceStock.quantity - (ctx.parsedQuantity : ℚ)
            updatedAt := some now })[j]? with
    | none =>
      simp only [TransfersApi.applyTransfer, hdi, hdg, Prod.mk.injEq,
        TransfersApi.TransferResponse.error.injEq] at h
      exact h.2.symm
    | some d => simp [TransfersApi.applyTransfer, hdi, hdg] at h

/-- The mutation phase always creates a transfer. -/
theorem applyTransfer_creates (st : TransfersApi.FileState)
    (ctx : TransfersApi.TransferCtx) (notes : Option String) (now : String) :
    ∃ t st', TransfersApi.applyTransfer st ctx notes now =
      (TransfersApi.TransferResponse.created t, st') := by
  rcases hres : TransfersApi.applyTransfer st ctx notes now with ⟨resp, st2⟩
  cases resp with
  | created t => exact ⟨t, st2, rfl⟩
  | error s e m av =>
    exfalso
    cases hdi : jsFindIndex (fun s => s.productId == ctx.parsedProductId &&
        s.warehouseId == ctx.parsedToWarehouseId)
        (st.stock.set ctx.sourceStockIndex
          { ctx.sourceStock with
              quantity := ctx.sourceStock.quantity - (ctx.parsedQuantity : ℚ)
              updatedAt := some now }) with
    | none => simp [TransfersApi.applyTransfer, hdi] at hres
    | some j =>
      obtain ⟨d, hd, _⟩ := jsFindIndex_getElem _ _ j hdi
      simp [TransfersApi.applyTransfer, hdi, hd] at hres

/-- Every error response of the transfers POST handler leaves the persisted
state untouched. -/
theorem postTransfer_error_state (st : TransfersApi.FileState)
    (body : TransfersApi.TransferBody) (now : String) (s : Nat) (e m : String)
    (av : Option ℚ) (st' : TransfersApi.FileState)
    (h : TransfersApi.postTransfer st body now =
      (TransfersApi.TransferResponse.error s e m av, st')) : st' = st := by
  cases hc : TransfersApi.checkTransfer st body with
  | error resp =>
    simp only [TransfersApi.postTransfer, hc, Prod.mk.injEq] at h
    exact h.2.symm
  | ok ctx =>
    have happ : TransfersApi.applyTransfer st ctx body.notes now =
        (TransfersApi.TransferResponse.error s e m av, st') := by
      simpa [TransfersApi.postTransfer, hc] using h
    exact applyTransfer_error_state st ctx body.notes now s e m av st' happ

/-- C1: every successful transfer decreases the source record's quantity by
exactly the transferred quantity, increases the destination record's
quantity by exactly it (the record being created with that quantity when
absent), hence preserves both the two-warehouse sum and the product's total
quantity over all warehouses. -/
theorem C1_transfer_conservation (st : TransfersApi.FileState)
    (body : TransfersApi.TransferBody) (now : String) (t : Transfer)
    (st' : TransfersApi.FileState)
    (h : TransfersApi.postTransfer st body now =
      (TransfersApi.TransferResponse.created t, st')) :
    stockQty st'.stock t.productId t.fromWarehouseId =
      stockQty st.stock t.productId t.fromWarehouseId - (t.quantity : ℚ) ∧
    stockQty st'.stock t.productId t.toWarehouseId =
      stockQty st.stock t.productId t.toWarehouseId + (t.quantity : ℚ) ∧
    stockQty st'.stock t.productId t.fromWarehouseId +
        stockQty st'.stock t.productId t.toWarehouseId =
      stockQty st.stock t.productId t.fromWarehouseId +
        stockQty st.stock t.productId t.toWarehouseId ∧
    totalQty st'.stock t.productId = totalQty st.stock t.productId := by
  obtain ⟨-, -, -, h4, h5, h6, -, -⟩ :=
    postTransfer_success_facts st body now t st' h
  exact ⟨h4, h5, by rw [h4, h5]; ring, h6⟩

/-- C1 witness: transferring 50 of 100 units from warehouse 1 to the
(initially empty) warehouse 2. -/
theorem C1_transfer_conservation_witness :
    stockQty [⟨1, 1, 1, (100 : ℚ) - ((50 : Int) : ℚ), none, some "t"⟩,
        ⟨2, 1, 2, ((50 : Int) : ℚ), some "t", some "t"⟩] 1 1 =
      stockQty [⟨1, 1, 1, 100, none, none⟩] 1 1 - ((50 : Int) : ℚ) :=
  (C1_transfer_conservation
    ⟨[⟨1, "SKU-1", "Widget", "Other", 10, 5⟩],
      [⟨1, "A", "Alpha", "L"⟩, ⟨2, "B", "Beta", "L"⟩],
      [⟨1, 1, 1, 100, none, none⟩], []⟩
    ⟨some (JsParse.int 1), some (JsParse.int 1), some (JsParse.int 2),
      some (JsParse.int 50), none⟩ "t"
    ⟨1, 1, 1, 2, 50, "", "completed", "t"⟩
    ⟨[⟨1, "SKU-1", "Widget", "Other", 10, 5⟩],
      [⟨1, "A", "Alpha", "L"⟩, ⟨2, "B", "Beta", "L"⟩],
      [⟨1, 1, 1, (100 : ℚ) - ((50 : Int) : ℚ), none, some "t"⟩,
        ⟨2, 1, 2, ((50 : Int) : ℚ), some "t", some "t"⟩],
      [⟨1, 1, 1, 2, 50, "", "completed", "t"⟩]⟩
    (by rfl)).1

/-- C2: whenever the transfers POST handler answers with any error — that
is, whenever any §4.2 precondition fails — the persisted stock records and
the persisted transfer list are byte-for-byte unchanged. -/
theorem C2_no_op_on_failure (st : TransfersApi.FileState)
    (body : TransfersApi.TransferBody) (now : String) (s : Nat) (e m : String)
    (av : Option ℚ) (st' : TransfersApi.FileState)
    (h : TransfersApi.postTransfer st body now =
      (TransfersApi.TransferResponse.error s e m av, st')) :
    st' = st ∧ st'.stock = st.stock ∧ st'.transfers = st.transfers := by
  have heq := postTransfer_error_state st body now s e m av st' h
  exact ⟨heq, by rw [heq], by rw [heq]⟩

/-- C2 witness: a transfer whose quantity exceeds the available stock
changes nothing. -/
theorem C2_no_op_on_failure_witness :
    (⟨[⟨1, "SKU-1", "Widget", "Other", 10, 5⟩],
        [⟨1, "A", "Alpha", "L"⟩, ⟨2, "B", "Beta", "L"⟩],
        [⟨1, 1, 1, 100, none, none⟩], []⟩ : TransfersApi.FileState) =
      ⟨[⟨1, "SKU-1", "Widget", "Other", 10, 5⟩],
        [⟨1, "A", "Alpha", "L"⟩, ⟨2, "B", "Beta", "L"⟩],
        [⟨1, 1, 1, 100, none, none⟩], []⟩ :=
  (C2_no_op_on_failure
    ⟨[⟨1, "SKU-1", "Widget", "Other", 10, 5⟩],
      [⟨1, "A", "Alpha", "L"⟩, ⟨2, "B", "Beta", "L"⟩],
      [⟨1, 1, 1, 100, none, none⟩], []⟩
    ⟨some (JsParse.int 1), some (JsParse.int 1), some (JsParse.int 2),
      some (JsParse.int 150), none⟩ "t" 400 "Insufficient stock"
    ("Only " ++ toString (100 : ℚ) ++ " units available at " ++ "Alpha" ++
      ". Cannot transfer " ++ toString (150 : Int) ++ " units.")
    (some 100)
    ⟨[⟨1, "SKU-1", "Widget", "Other", 10, 5⟩],
      [⟨1, "A", "Alpha", "L"⟩, ⟨2, "B", "Beta", "L"⟩],
      [⟨1, 1, 1, 100, none, none⟩], []⟩
    (by rfl)).1

/-- The possible first failures of the transfer validation, with the data
each error message reports. -/
inductive TransferCheckFailure where
  | missingField (message : String) : TransferCheckFailure
  | productIdNaN : TransferCheckFailure
  | warehouseIdNaN : TransferCheckFailure
  | sameWarehouse : TransferCheckFailure
  | badQuantity : TransferCheckFailure
  | productMissing : TransferCheckFailure
  | fromWarehouseMissing : TransferCheckFailure
  | toWarehouseMissing : TransferCheckFailure
  | noSourceRecord (productName fromName : String) : TransferCheckFailure
  | insufficientSource (available : ℚ) (requested : Int)
      (fromName : String) : TransferCheckFailure
deriving DecidableEq, Repr

/-- Modelled from the amended claim: the first failing transfer
precondition, in the amended order — presence of productId, source, then
destination warehouse id, then quantity; productId numeric; both warehouse
ids numeric; distinct warehouses; positive numeric quantity; product
exists; source, then destination warehouse exists; a source stock record
exists (its absence being a distinct `No stock available` failure that
reports no available amount); sufficient source quantity (reporting the
available amount). -/
def firstTransferFailure (st : TransfersApi.FileState)
    (body : TransfersApi.TransferBody) : Option TransferCheckFailure :=
  match body.productId, body.fromWarehouseId, body.toWarehouseId,
      body.quantity with
  | none, _, _, _ =>
    some (TransferCheckFailure.missingField "Product ID is required.")
  | _, none, _, _ =>
    some (TransferCheckFailure.missingField
      "Source warehouse ID is required.")
  | _, _, none, _ =>
    some (TransferCheckFailure.missingField
      "Destination warehouse ID is required.")
  | _, _, _, none =>
    some (TransferCheckFailure.missingField "Quantity is required.")
  | some pRaw, some fRaw, some tRaw, some qRaw =>
    match pRaw with
    | JsParse.nan => some TransferCheckFailure.productIdNaN
    | JsParse.int productId =>
    match fRaw, tRaw with
    | JsParse.nan, _ => some TransferCheckFailure.warehouseIdNaN
    | JsParse.int _, JsParse.nan => some TransferCheckFailure.warehouseIdNaN
    | JsParse.int fromId, JsParse.int toId =>
    if fromId = toId then some TransferCheckFailure.sameWarehouse
    else
    match qRaw with
    | JsParse.nan => some TransferCheckFailure.badQuantity
    | JsParse.int q =>
    if q ≤ 0 then some TransferCheckFailure.badQuantity
    else
    match jsFind (fun p => p.id == productId) st.products with
    | none => some TransferCheckFailure.productMissing
    | some product =>
    match jsFind (fun w => w.id == fromId) st.warehouses with
    | none => some TransferCheckFailure.fromWarehouseMissing
    | some fromWarehouse =>
    match jsFind (fun w => w.id == toId) st.warehouses with
    | none => some TransferCheckFailure.toWarehouseMissing
    | some _ =>
    match jsFind (fun s => s.productId == productId &&
        s.warehouseId == fromId) st.stock with
    | none =>
      some (TransferCheckFailure.noSourceRecord product.name
        fromWarehouse.name)
    | some src =>
      if src.quantity < (q : ℚ) then
        some (TransferCheckFailure.insufficientSource src.quantity q
          fromWarehouse.name)
      else none

/-- The concrete response the handler gives for each first failure. -/
def renderTransferFailure :
    TransferCheckFailure → TransfersApi.TransferResponse
  | TransferCheckFailure.missingField msg =>
    TransfersApi.TransferResponse.error 400 "Validation failed" msg none
  | TransferCheckFailure.productIdNaN =>
    TransfersApi.TransferResponse.error 400 "Validation failed"
      "Product ID must be a valid number." none
  | TransferCheckFailure.warehouseIdNaN =>
    TransfersApi.TransferResponse.error 400 "Validation failed"
      "Warehouse IDs must be valid numbers." none
  | TransferCheckFailure.sameWarehouse =>
    TransfersApi.TransferResponse.error 400 "Validation failed"
      "Source and destination warehouses must be different." none
  | TransferCheckFailure.badQuantity =>
    TransfersApi.TransferResponse.error 400 "Validation failed"
      "Quantity must be a positive number." none
  | TransferCheckFailure.productMissing =>
    TransfersApi.TransferResponse.error 404 "Not Found"
      "The specified product does not exist." none
  | TransferCheckFailure.fromWarehouseMissing =>
    TransfersApi.TransferResponse.error 404 "Not Found"
      "Source warehouse does not exist." none
  | TransferCheckFailure.toWarehouseMissing =>
    TransfersApi.TransferResponse.error 404 "Not Found"
      "Destination warehouse does not exist." none
  | TransferCheckFailure.noSourceRecord productName fromName =>
    TransfersApi.TransferResponse.error 400 "No stock available"
      (productName ++ " is not available at " ++ fromName ++ ".") none
  | TransferCheckFailure.insufficientSource available requested fromName =>
    TransfersApi.TransferResponse.error 400 "Insufficient stock"
      ("Only " ++ toString available ++ " units available at " ++ fromName ++
        ". Cannot transfer " ++ toString requested ++ " units.")
      (some available)

/-- C4 counterexample: the claim's validation order is violated twice.
With an ill-typed quantity and identical warehouses, the handler reports
the same-warehouse error, although the claim's step 1 (well-typedness of
quantity) precedes its step 2; and with a missing source stock record the
handler answers `No stock available` with no `available` field rather than
the claim's `InsufficientStock` reporting the available quantity. -/
theorem C4_counterexample :
    (TransfersApi.postTransfer ⟨[], [], [], []⟩
        ⟨some (JsParse.int 1), some (JsParse.int 2), some (JsParse.int 2),
          some JsParse.nan, none⟩ "t").1 =
      TransfersApi.TransferResponse.error 400 "Validation failed"
        "Source and destination warehouses must be different." none ∧
    (TransfersApi.postTransfer ⟨[], [], [], []⟩
        ⟨some (JsParse.int 1), some (JsParse.int 2), some (JsParse.int 2),
          some JsParse.nan, none⟩ "t").1 ≠
      TransfersApi.TransferResponse.error 400 "Validation failed"
        "Quantity must be a positive number." none ∧
    (TransfersApi.postTransfer
        ⟨[⟨1, "SKU-1", "Widget", "Other", 10, 5⟩],
          [⟨1, "A", "Alpha", "L"⟩, ⟨2, "B", "Beta", "L"⟩], [], []⟩
        ⟨some (JsParse.int 1), some (JsParse.int 1), some (JsParse.int 2),
          some (JsParse.int 5), none⟩ "t").1 =
      TransfersApi.TransferResponse.error 400 "No stock available"
        ("Widget" ++ " is not available at " ++ "Alpha" ++ ".") none := by
  refine ⟨by rfl, ?_, by rfl⟩
  have h1 : (TransfersApi.postTransfer ⟨[], [], [], []⟩
      ⟨some (JsParse.int 1), some (JsParse.int 2), some (JsParse.int 2),
        some JsParse.nan, none⟩ "t").1 =
    TransfersApi.TransferResponse.error 400 "Validation failed"
      "Source and destination warehouses must be different." none := by rfl
  rw [h1]
  simp

/-- C4 amended: the transfer handler validates with first failure winning,
in the code's order — presence of productId, source warehouse id,
destination warehouse id, quantity; numeric productId; numeric warehouse
ids; distinct warehouses; positive numeric quantity; product exists;
source, then destination warehouse exists; a source stock record exists
(absence being answered `No stock available` without an available amount);
sufficient source quantity (answered `Insufficient stock`, reporting the
available amount).  The handler returns exactly the response of the first
failing check with the state unchanged, and succeeds exactly when no check
fails. -/
theorem C4_amended_validation_order (st : TransfersApi.FileState)
    (body : TransfersApi.TransferBody) (now : String) :
    (∀ f, firstTransferFailure st body = some f →
      TransfersApi.postTransfer st body now =
        (renderTransferFailure f, st)) ∧
    (firstTransferFailure st body = none →
      ∃ t st', TransfersApi.postTransfer st body now =
        (TransfersApi.TransferResponse.created t, st')) := by
  cases hbp : body.productId with
  | none =>
    constructor
    · intro f hf
      simp [firstTransferFailure, hbp] at hf
      subst hf
      simp [TransfersApi.postTransfer, TransfersApi.checkTransfer,
        renderTransferFailure, hbp]
    · intro hnone
      simp [firstTransferFailure, hbp] at hnone
  | some pRaw =>
  cases hbf : body.fromWarehouseId with
  | none =>
    constructor
    · intro f hf
      simp [firstTransferFailure, hbp, hbf] at hf
      subst hf
      simp [TransfersApi.postTransfer, TransfersApi.checkTransfer,
        renderTransferFailure, hbp, hbf]
    · intro hnone
      simp [firstTransferFailure, hbp, hbf] at hnone
  | some fRaw =>
  cases hbt : body.toWarehouseId with
  | none =>
    constructor
    · intro f hf
      simp [firstTransferFailure, hbp, hbf, hbt] at hf
      subst hf
      simp [TransfersApi.postTransfer, TransfersApi.checkTransfer,
        renderTransferFailure, hbp, hbf, hbt]
    · intro hnone
      simp [firstTransferFailure, hbp, hbf, hbt] at hnone
  | some tRaw =>
  cases hbq : body.quantity with
  | none =>
    constructor
    · intro f hf
      simp [firstTransferFailure, hbp, hbf, hbt, hbq] at hf
      subst hf
      simp [TransfersApi.postTransfer, TransfersApi.checkTransfer,
        renderTransferFailure, hbp, hbf, hbt, hbq]
    · intro hnone
      simp [firstTransferFailure, hbp, hbf, hbt, hbq] at hnone
  | some qRaw =>
  cases pRaw with
  | nan =>
    constructor
    · intro f hf
      simp [firstTransferFailure, hbp, hbf, hbt, hbq] at hf
      subst hf
      simp [TransfersApi.postTransfer, TransfersApi.checkTransfer,
        renderTransferFailure, hbp, hbf, hbt, hbq]
    · intro hnone
      simp [firstTransferFailure, hbp, hbf, hbt, hbq] at hnone
  | int pid =>
  cases fRaw with
  | nan =>
    constructor
    · intro f hf
      simp [firstTransferFailure, hbp, hbf, hbt, hbq] at hf
      subst hf
      simp [TransfersApi.postTransfer, TransfersApi.checkTransfer,
        renderTransferFailure, hbp, hbf, hbt, hbq]
    · intro hnone
      simp [firstTransferFailure, hbp, hbf, hbt, hbq] at hnone
  | int fid =>
  cases tRaw with
  | nan =>
    constructor
    · intro f hf
      simp [firstTransferFailure, hbp, hbf, hbt, hbq] at hf
      subst hf
      simp [TransfersApi.postTransfer, TransfersApi.checkTransfer,
        renderTransferFailure, hbp, hbf, hbt, hbq]
    · intro hnone
      simp [firstTransferFailure, hbp, hbf, hbt, hbq] at hnone
  | int tid =>
  by_cases hft : fid = tid
  · constructor
    · intro f hf
      simp [firstTransferFailure, hbp, hbf, hbt, hbq, hft] at hf
      subst hf
      simp [TransfersApi.postTransfer, TransfersApi.checkTransfer,
        renderTransferFailure, hbp, hbf, hbt, hbq, hft]
    · intro hnone
      simp [firstTransferFailure, hbp, hbf, hbt, hbq, hft] at hnone
  cases qRaw with
  | nan =>
    constructor
    · intro f hf
      simp [firstTransferFailure, hbp, hbf, hbt, hbq, hft] at hf
      subst hf
      simp [TransfersApi.postTransfer, TransfersApi.checkTransfer,
        renderTransferFailure, hbp, hbf, hbt, hbq, hft]
    · intro hnone
      simp [firstTransferFailure, hbp, hbf, hbt, hbq, hft] at hnone
  | int q =>
  by_cases hq0 : q ≤ 0
  · constructor
    · intro f hf
      simp [firstTransferFailure, hbp, hbf, hbt, hbq, hft, hq0] at hf
      subst hf
      simp [TransfersApi.postTransfer, TransfersApi.checkTransfer,
        renderTransferFailure, hbp, hbf, hbt, hbq, hft, hq0]
    · intro hnone
      simp [firstTransferFailure, hbp, hbf, hbt, hbq, hft, hq0] at hnone
  cases hfp : jsFind (fun p => p.id == pid) st.products with
  | none =>
    constructor
    · intro f hf
      simp [firstTransferFailure, hbp, hbf, hbt, hbq, hft, hq0, hfp] at hf
      subst hf
      simp [TransfersApi.postTransfer, TransfersApi.checkTransfer,
        renderTransferFailure, hbp, hbf, hbt, hbq, hft, hq0, hfp]
    · intro hnone
      simp [firstTransferFailure, hbp, hbf, hbt, hbq, hft, hq0, hfp] at hnone
  | some product =>
  cases hfw : jsFind (fun w => w.id == fid) st.warehouses with
  | none =>
    constructor
    · intro f hf
      simp [firstTransferFailure, hbp, hbf, hbt, hbq, hft, hq0, hfp,
        hfw] at hf
      subst hf
      simp [TransfersApi.postTransfer, TransfersApi.checkTransfer,
        renderTransferFailure, hbp, hbf, hbt, hbq, hft, hq0, hfp, hfw]
    · intro hnone
      simp [firstTransferFailure, hbp, hbf, hbt, hbq, hft, hq0, hfp,
        hfw] at hnone
  | some fromW =>
  cases htw : jsFind (fun w => w.id == tid) st.warehouses with
  | none =>
    constructor
    · intro f hf
      simp [firstTransferFailure, hbp, hbf, hbt, hbq, hft, hq0, hfp, hfw,
        htw] at hf
      subst hf
      simp [TransfersApi.postTransfer, TransfersApi.checkTransfer,
        renderTransferFailure, hbp, hbf, hbt, hbq, hft, hq0, hfp, hfw, htw]
    · intro hnone
      simp [firstTransferFailure, hbp, hbf, hbt, hbq, hft, hq0, hfp, hfw,
        htw] at hnone
  | some toW =>
  cases hsi : jsFindIndex (fun s => s.productId == pid &&
      s.warehouseId == fid) st.stock with
  | none =>
    have hsf : jsFind (fun s => s.productId == pid &&
        s.warehouseId == fid) st.stock = none :=
      jsFind_none_of_jsFindIndex_none _ _ hsi
    constructor
    · intro f hf
      simp [firstTransferFailure, hbp, hbf, hbt, hbq, hft, hq0, hfp, hfw,
        htw, hsf] at hf
      subst hf
      simp [TransfersApi.postTransfer, TransfersApi.checkTransfer,
        renderTransferFailure, hbp, hbf, hbt, hbq, hft, hq0, hfp, hfw, htw,
        hsi]
    · intro hnone
      simp [firstTransferFailure, hbp, hbf, hbt, hbq, hft, hq0, hfp, hfw,
        htw, hsf] at hnone
  | some i =>
  cases hsg : st.stock[i]? with
  | none =>
    obtain ⟨a, hga, _⟩ := jsFindIndex_getElem _ _ i hsi
    rw [hsg] at hga
    exact absurd hga (by simp)
  | some src =>
  have hsf : jsFind (fun s => s.productId == pid &&
      s.warehouseId == fid) st.stock = some src :=
    jsFind_of_jsFindIndex _ _ i src hsi hsg
  by_cases hlt : src.quantity < (q : ℚ)
  · constructor
    · intro f hf
      simp [firstTransferFailure, hbp, hbf, hbt, hbq, hft, hq0, hfp, hfw,
        htw, hsf, hlt] at hf
      subst hf
      simp [TransfersApi.postTransfer, TransfersApi.checkTransfer,
        renderTransferFailure, hbp, hbf, hbt, hbq, hft, hq0, hfp, hfw, htw,
        hsi, hsg, hlt]
    · intro hnone
      simp [firstTransferFailure, hbp, hbf, hbt, hbq, hft, hq0, hfp, hfw,
        htw, hsf, hlt] at hnone
  constructor
  · intro f hf
    simp [firstTransferFailure, hbp, hbf, hbt, hbq, hft, hq0, hfp, hfw, htw,
      hsf, hlt] at hf
  · intro _
    obtain ⟨t, st', hts⟩ := applyTransfer_creates st
      ⟨pid, fid, tid, q, product, fromW, toW, i, src⟩ body.notes now
    refine ⟨t, st', ?_⟩
    have hchk : TransfersApi.checkTransfer st body = Except.ok
        ⟨pid, fid, tid, q, product, fromW, toW, i, src⟩ := by
      simp [TransfersApi.checkTransfer, hbp, hbf, hbt, hbq, hft, hq0, hfp,
        hfw, htw, hsi, hsg, hlt]
    simp [TransfersApi.postTransfer, hchk, hts]

/-- C4 amended witness: the all-absent body fails on the missing product
id, in first position. -/
theorem C4_amended_validation_order_witness :
    TransfersApi.postTransfer ⟨[], [], [], []⟩ ⟨none, none, none, none, none⟩
      "t" = (renderTransferFailure
        (TransferCheckFailure.missingField "Product ID is required."),
      ⟨[], [], [], []⟩) :=
  (C4_amended_validation_order ⟨[], [], [], []⟩
    ⟨none, none, none, none, none⟩ "t").1
    (TransferCheckFailure.missingField "Product ID is required.") rfl

namespace StockApi

/-- The request body of POST `/api/stock`: each field absent or carrying
its `parseInt` result. -/
structure StockBody where
  productId : Option JsParse
  warehouseId : Option JsParse
  quantity : Option JsParse
deriving DecidableEq, Repr

/-- `validateStock` from `pages/api/stock/index.js`: accumulate error
messages, in source order, for a missing, non-numeric or unknown product
and warehouse and a missing, non-numeric or negative quantity. -/
def validateStock (body : StockBody) (products : List Product)
    (warehouses : List Warehouse) : List String :=
  (match body.productId with
   | none => ["Product ID is required"]
   | some JsParse.nan => ["Product ID must be a valid number"]
   | some (JsParse.int pid) =>
     match jsFind (fun p => p.id == pid) products with
     | none => ["Product not found"]
     | some _ => []) ++
  (match body.warehouseId with
   | none => ["Warehouse ID is required"]
   | some JsParse.nan => ["Warehouse ID must be a valid number"]
   | some (JsParse.int wid) =>
     match jsFind (fun w => w.id == wid) warehouses with
     | none => ["Warehouse not found"]
     | some _ => []) ++
  (match body.quantity with
   | none => ["Quantity is required"]
   | some JsParse.nan => ["Quantity must be a non-negative integer"]
   | some (JsParse.int q) =>
     if q < 0 then ["Quantity must be a non-negative integer"] else [])

/-- Response of the stock POST and PUT handlers. -/
inductive StockResponse where
  | error (status : Nat) (error : String) (details : List String) :
      StockResponse
  | conflict (message : String) (existingId : Int) : StockResponse
  | created (s : StockRecord) : StockResponse
  | updated (s : StockRecord) : StockResponse
deriving DecidableEq, Repr

/-- The POST branch of `pages/api/stock/index.js`: validate, reject a
duplicate (product, warehouse) record with a conflict, else append the new
record.  The result is paired with the persisted stock list.  The wildcard
row models the impossible re-parse after a passed validation as the
handler's catch-all 500. -/
def postStock (stock : List StockRecord) (products : List Product)
    (warehouses : List Warehouse) (body : StockBody) (now : String) :
    StockResponse × List StockRecord :=
  let errors := validateStock body products warehouses
  if errors ≠ [] then
    (StockResponse.error 400 "Validation failed" errors, stock)
  else
    match body.productId, body.warehouseId, body.quantity with
    | some (JsParse.int productId), some (JsParse.int warehouseId),
        some (JsParse.int quantity) =>
      match jsFind (fun s => s.productId == productId &&
          s.warehouseId == warehouseId) stock with
      | some existing =>
        (StockResponse.conflict
          "A stock record for this product and warehouse already exists. Use PUT to update."
          existing.id, stock)
      | none =>
        let newStock : StockRecord :=
          { id := jsNextId (stock.map (fun s => s.id))
            productId := productId
            warehouseId := warehouseId
            quantity := (quantity : ℚ)
            createdAt := some now
            updatedAt := some now }
        (StockResponse.created newStock, stock ++ [newStock])
    | _, _, _ => (StockResponse.error 500 "Internal Server Error" [], stock)

/-- The request body of PUT `/api/stock/[id]`: absent fields keep the
record's current values. -/
structure StockUpdateBody where
  productId : Option JsParse
  warehouseId : Option JsParse
  quantity : Option JsParse
deriving DecidableEq, Repr

/-- `validateStockUpdate` from `pages/api/stock/[id].js`: like
`validateStock` but every field optional. -/
def validateStockUpdate (body : StockUpdateBody) (products : List Product)
    (warehouses : List Warehouse) : List String :=
  (match body.productId with
   | none => []
   | some JsParse.nan => ["Product ID must be a valid number"]
   | some (JsParse.int pid) =>
     match jsFind (fun p => p.id == pid) products with
     | none => ["Product not found"]
     | some _ => []) ++
  (match body.warehouseId with
   | none => []
   | some JsParse.nan => ["Warehouse ID must be a valid number"]
   | some (JsParse.int wid) =>
     match jsFind (fun w => w.id == wid) warehouses with
     | none => ["Warehouse not found"]
     | some _ => []) ++
  (match body.quantity with
   | none => []
   | some JsParse.nan => ["Quantity must be a non-negative integer"]
   | some (JsParse.int q) =>
     if q < 0 then ["Quantity must be a non-negative integer"] else [])

/-- The effective product id of a stock update: the parsed patch value when
the field is present, else the record's current value. -/
def patchedProductId (body : StockUpdateBody) (current : StockRecord) : Int :=
  match body.productId with
  | some (JsParse.int pid) => pid
  | _ => current.productId

/-- The effective warehouse id of a stock update. -/
def patchedWarehouseId (body : StockUpdateBody) (current : StockRecord) :
    Int :=
  match body.warehouseId with
  | some (JsParse.int wid) => wid
  | _ => current.warehouseId

/-- The effective quantity of a stock update.  A present-but-NaN quantity
cannot reach the update (validation rejects it first), so the fallback
keeps the current quantity. -/
def patchedQuantity (body : StockUpdateBody) (current : StockRecord) : ℚ :=
  match body.quantity with
  | some (JsParse.int qn) => (qn : ℚ)
  | _ => current.quantity

/-- The duplicate-record guard of the PUT branch: only when the update
moves the record to another (product, warehouse) pair, look for a
different record already at that pair. -/
def duplicateCheck (stock : List StockRecord) (current : StockRecord)
    (parsedId productId warehouseId : Int) : Option StockRecord :=
  if productId = current.productId ∧ warehouseId = current.warehouseId then
    none
  else
    jsFind (fun s => s.productId == productId &&
      (s.warehouseId == warehouseId && !(s.id == parsedId))) stock

/-- The PUT branch of `pages/api/stock/[id].js`: parse the id, find the
record, validate the patch, reject a duplicate (product, warehouse) move
with a conflict, else update the record in place. -/
def putStock (stock : List StockRecord) (products : List Product)
    (warehouses : List Warehouse) (idRaw : JsParse) (body : StockUpdateBody)
    (now : String) : StockResponse × List StockRecord :=
  match idRaw with
  | JsParse.nan =>
    (StockResponse.error 400 "Bad Request" ["Invalid stock ID"], stock)
  | JsParse.int parsedId =>
  match jsFindIndex (fun s => s.id == parsedId) stock with
  | none =>
    (StockResponse.error 404 "Not Found" ["Stock item not found"], stock)
  | some index =>
  match stock[index]? with
  | none => (StockResponse.error 500 "Internal Server Error" [], stock)
  | some current =>
  let errors := validateStockUpdate body products warehouses
  if errors ≠ [] then
    (StockResponse.error 400 "Validation failed" errors, stock)
  else
    match duplicateCheck stock current parsedId
        (patchedProductId body current) (patchedWarehouseId body current) with
    | some existing =>
      (StockResponse.conflict
        "A stock record for this product and warehouse already exists"
        existing.id, stock)
    | none =>
      let updated : StockRecord :=
        { current with
            id := parsedId
            productId := patchedProductId body current
            warehouseId := patchedWarehouseId body current
            quantity := patchedQuantity body current
            updatedAt := some now }
      (StockResponse.updated updated, stock.set index updated)

end StockApi

/-- C5: no operation leaves a stock record negative — the transfer, stock
creation and stock update handlers all preserve non-negativity of every
persisted quantity; creating a record with a negative quantity is rejected
by validation with the store unchanged; and a successful transfer always
has a positive quantity covered by the source record (otherwise the
insufficient-stock error fires instead of driving the source negative). -/
theorem C5_non_negativity :
    (∀ (st : TransfersApi.FileState) (body : TransfersApi.TransferBody)
      (now : String), (∀ s ∈ st.stock, 0 ≤ s.quantity) →
      ∀ s ∈ (TransfersApi.postTransfer st body now).2.stock,
        0 ≤ s.quantity) ∧
    (∀ (stock : List StockRecord) (products : List Product)
      (warehouses : List Warehouse) (body : StockApi.StockBody)
      (now : String), (∀ s ∈ stock, 0 ≤ s.quantity) →
      ∀ s ∈ (StockApi.postStock stock products warehouses body now).2,
        0 ≤ s.quantity) ∧
    (∀ (stock : List StockRecord) (products : List Product)
      (warehouses : List Warehouse) (idRaw : JsParse)
      (body : StockApi.StockUpdateBody) (now : String),
      (∀ s ∈ stock, 0 ≤ s.quantity) →
      ∀ s ∈ (StockApi.putStock stock products warehouses idRaw body now).2,
        0 ≤ s.quantity) ∧
    (∀ (stock : List StockRecord) (products : List Product)
      (warehouses : List Warehouse) (pp ww : Option JsParse) (q : Int)
      (now : String), q < 0 →
      (StockApi.postStock stock products warehouses
        ⟨pp, ww, some (JsParse.int q)⟩ now).2 = stock ∧
      "Quantity must be a non-negative integer" ∈
        StockApi.validateStock ⟨pp, ww, some (JsParse.int q)⟩ products
          warehouses) ∧
    (∀ (st : TransfersApi.FileState) (body : TransfersApi.TransferBody)
      (now : String) (t : Transfer) (st' : TransfersApi.FileState),
      TransfersApi.postTransfer st body now =
        (TransfersApi.TransferResponse.created t, st') →
      0 < t.quantity ∧
        (t.quantity : ℚ) ≤ stockQty st.stock t.productId t.fromWarehouseId) := by
  refine ⟨?_, ?_, ?_, ?_, ?_⟩
  · intro st body now hnn
    rcases hres : TransfersApi.postTransfer st body now with ⟨resp, st2⟩
    cases resp with
    | error s e m av =>
      have h2 := postTransfer_error_state st body now s e m av st2 hres
      simpa [h2] using hnn
    | created t =>
      obtain ⟨-, -, -, -, -, -, -, hpres⟩ :=
        postTransfer_success_facts st body now t st2 hres
      simpa using hpres hnn
  · intro stock products warehouses body now hnn
    by_cases herr : StockApi.validateStock body products warehouses ≠ []
    · simpa [StockApi.postStock, herr] using hnn
    · push_neg at herr
      cases hbp : body.productId with
      | none => exact absurd herr (by simp [StockApi.validateStock, hbp])
      | some pv =>
      cases pv with
      | nan => exact absurd herr (by simp [StockApi.validateStock, hbp])
      | int pid =>
      cases hfp : jsFind (fun p => p.id == pid) products with
      | none =>
        exact absurd herr (by simp [StockApi.validateStock, hbp, hfp])
      | some product =>
      cases hbw : body.warehouseId with
      | none =>
        exact absurd herr (by simp [StockApi.validateStock, hbp, hfp, hbw])
      | some wv =>
      cases wv with
      | nan =>
        exact absurd herr (by simp [StockApi.validateStock, hbp, hfp, hbw])
      | int wid =>
      cases hfw : jsFind (fun w => w.id == wid) warehouses with
      | none =>
        exact absurd herr
          (by simp [StockApi.validateStock, hbp, hfp, hbw, hfw])
      | some warehouse =>
      cases hbq : body.quantity with
      | none =>
        exact absurd herr
          (by simp [StockApi.validateStock, hbp, hfp, hbw, hfw, hbq])
      | some qv =>
      cases qv with
      | nan =>
        exact absurd herr
          (by simp [StockApi.validateStock, hbp, hfp, hbw, hfw, hbq])
      | int q =>
      have hq0 : ¬ q < 0 := by
        intro hq
        exact absurd herr
          (by simp [StockApi.validateStock, hbp, hfp, hbw, hfw, hbq, hq])
      cases hdup : jsFind (fun s => s.productId == pid &&
          s.warehouseId == wid) stock with
      | some existing =>
        simpa [StockApi.postStock, herr, hbp, hbw, hbq, hdup] using hnn
      | none =>
        simp only [StockApi.postStock, herr, hbp, hbw, hbq, hdup]
        intro s hs
        simp at hs
        rcases hs with hmem | hnew
        · exact hnn s hmem
        · rw [hnew]
          show 0 ≤ ((q : Int) : ℚ)
          exact_mod_cast le_of_not_lt hq0
  · intro stock products warehouses idRaw body now hnn
    cases idRaw with
    | nan => simpa [StockApi.putStock] using hnn
    | int parsedId =>
    cases hfi : jsFindIndex (fun s => s.id == parsedId) stock with
    | none => simpa [StockApi.putStock, hfi] using hnn
    | some index =>
    cases hge : stock[index]? with
    | none => simpa [StockApi.putStock, hfi, hge] using hnn
    | some current =>
    have hcur : current ∈ stock := List.getElem?_mem hge
    by_cases herr : StockApi.validateStockUpdate body products warehouses ≠ []
    · simpa [StockApi.putStock, hfi, hge, herr] using hnn
    · push_neg at herr
      cases hdup : StockApi.duplicateCheck stock current parsedId
          (StockApi.patchedProductId body current)
          (StockApi.patchedWarehouseId body current) with
      | some existing =>
        simpa [StockApi.putStock, hfi, hge, herr, hdup] using hnn
      | none =>
        simp only [StockApi.putStock, hfi, hge, herr, hdup]
        intro s hs
        rcases List.mem_or_eq_of_mem_set hs with hmem | rfl
        · exact hnn s hmem
        · show 0 ≤ StockApi.patchedQuantity body current
          cases hbq : body.quantity with
          | none => simpa [StockApi.patchedQuantity, hbq] using hnn current hcur
          | some qv =>
            cases qv with
            | nan =>
              simpa [StockApi.patchedQuantity, hbq] using hnn current hcur
            | int qn =>
              have hq0 : ¬ qn < 0 := by
                intro hq
                refine absurd herr ?_
                cases hbp : body.productId <;> cases hbw : body.warehouseId <;>
                  simp [StockApi.validateStockUpdate, hbp, hbw, hbq, hq]
              simp only [StockApi.patchedQuantity, hbq]
              show 0 ≤ ((qn : Int) : ℚ)
              exact_mod_cast le_of_not_lt hq0
  · intro stock products warehouses pp ww q now hq
    have hmem : "Quantity must be a non-negative integer" ∈
        StockApi.validateStock ⟨pp, ww, some (JsParse.int q)⟩ products
          warehouses := by
      simp [StockApi.validateStock, hq]
    refine ⟨?_, hmem⟩
    have hne : StockApi.validateStock ⟨pp, ww, some (JsParse.int q)⟩ products
        warehouses ≠ [] := by
      intro hnil
      rw [hnil] at hmem
      simp at hmem
    simp [StockApi.postStock, hne]
  · intro st body now t st' h
    obtain ⟨h1, h2, -, -, -, -, -, -⟩ :=
      postTransfer_success_facts st body now t st' h
    exact ⟨h1, h2⟩

/-- C5 witness: creating a stock record with quantity -5 is rejected and
the store is unchanged. -/
theorem C5_non_negativity_witness :
    (StockApi.postStock [] [] [] ⟨some (JsParse.int 1), some (JsParse.int 1),
        some (JsParse.int (-5))⟩ "t").2 = [] ∧
    "Quantity must be a non-negative integer" ∈
      StockApi.validateStock ⟨some (JsParse.int 1), some (JsParse.int 1),
        some (JsParse.int (-5))⟩ [] [] :=
  C5_non_negativity.2.2.2.1 [] [] [] (some (JsParse.int 1))
    (some (JsParse.int 1)) (-5) "t" (by decide)
